import Mathlib

/-!
Shallow embedding of `src/platform-connectors/browser-twitter-connector.ts`.

The connector drives a browser (puppeteer) against the Twitter web UI.  We
model the browser dependency as an environment `Env` of response functions;
every response may depend on the full history of browser actions performed so
far (the trace), which makes the environment strictly more general than a
static page.  Connector code runs in the monad `M`, threading the connector
state `Conn` (the mutable fields of the TypeScript class) and the trace of
browser actions.  JavaScript exceptions are modelled by `Except JsError`;
`JsError.code` marks errors thrown by connector code itself (`new Error(...)`)
and `JsError.ext` marks errors raised by the browser dependency, so the origin
of an error is visible in proofs.  Fixed-duration waits (`setTimeout`) are
pure delays with no observable effect and are not modelled.
-/

namespace BTwitter

/-- A JavaScript error value.  `code` is an error constructed by the connector
source with `new Error(message)`; `ext` is an error produced by the browser
dependency (navigation failure, element failure, ...). -/
inductive JsError where
  | code (message : String)
  | ext (message : String)
deriving DecidableEq, Repr

/-- The `message` property of an error object. -/
def JsError.message : JsError → String
  | JsError.code m => m
  | JsError.ext m => m

/-- One observable call into the browser dependency. -/
inductive Action where
  | launch
  | newPage
  | setViewport
  | setUserAgent
  | goto (url : String)
  | waitForSelector (selector : String)
  | typeSelector (selector text : String)
  | query (selector : String)
  | queryAll (selector : String)
  | clickElem
  | typeElem (text : String)
  | evalTextContent
  | evalDisabled
  | keyPress (key : String)
  | keyType (text : String)
  | screenshot (path : String)
  | waitForNavigation
  | readUrl
  | evalScript
  | closeBrowser
deriving DecidableEq, Repr

/-- An element handle returned by `page.$` / `page.$$`.  Each field is the
outcome of the corresponding operation on the handle; `Except String` carries
the message of a browser-side failure. -/
structure Element where
  textContent : Except String (Option String)
  click : Except String Unit
  typeInto : String → Except String Unit
  isDisabled : Except String Bool

/-- The browser dependency.  Every response may depend on the trace of actions
performed so far. -/
structure Env where
  launch : List Action → Except String Unit
  newPage : List Action → Except String Unit
  setViewport : List Action → Except String Unit
  setUserAgent : List Action → Except String Unit
  closeBrowser : List Action → Except String Unit
  goto : List Action → String → Except String Unit
  waitForSelector : List Action → String → Except String Unit
  pageType : List Action → String → String → Except String Unit
  query : List Action → String → Except String (Option Element)
  queryAll : List Action → String → Except String (List Element)
  keyPress : List Action → String → Except String Unit
  keyType : List Action → String → Except String Unit
  screenshot : List Action → String → Except String Unit
  waitForNavigation : List Action → Except String Unit
  pageUrl : List Action → String
  evalFindTweetButton : List Action → Except String Bool

/-- The mutable fields of the `BrowserTwitterConnector` class.  Handles are
collapsed to presence tokens; `monitorInterval` stores the interval of the
armed timer. -/
structure Conn where
  agent : Option Unit
  swarm : Option Unit
  browser : Option Unit
  page : Option Unit
  connected : Bool
  monitorInterval : Option Int
deriving DecidableEq, Repr

/-- A freshly constructed connector: nothing assigned, not connected. -/
def Conn.init : Conn :=
  { agent := none, swarm := none, browser := none, page := none
    connected := false, monitorInterval := none }

/-- `BrowserTwitterConnectorConfig` from the source.  Absent options are
`none`.  JavaScript numbers are modelled as `Int` (the claims concern zero and
negative values; `NaN` is not representable in this model). -/
structure BrowserTwitterConnectorConfig where
  username : Option String := none
  password : Option String := none
  email : Option String := none
  monitorKeywords : Option (List String) := none
  monitorUsers : Option (List String) := none
  autoReply : Option Bool := none
  pollInterval : Option Int := none
  headless : Option Bool := none
  debug : Option Bool := none
deriving DecidableEq, Repr

/-- The connector monad: connector state and action trace threaded through a
computation that may stop with a JavaScript error. -/
def M (α : Type) : Type :=
  Conn → List Action → Except JsError α × Conn × List Action

def M.pure {α : Type} (a : α) : M α := fun s t => (Except.ok a, s, t)

def M.bind {α β : Type} (m : M α) (f : α → M β) : M β := fun s t =>
  match m s t with
  | (Except.ok a, s2, t2) => f a s2 t2
  | (Except.error e, s2, t2) => (Except.error e, s2, t2)

instance : Monad M where
  pure := M.pure
  bind := M.bind

/-- Read the connector state (`this`). -/
def getConn : M Conn := fun s t => (Except.ok s, s, t)

/-- Assign connector fields. -/
def modifyConn (f : Conn → Conn) : M Unit := fun s t => (Except.ok (), f s, t)

/-- `throw new Error(msg)` in connector code. -/
def throwJs {α : Type} (msg : String) : M α :=
  fun s t => (Except.error (JsError.code msg), s, t)

/-- Re-throw a caught error value. -/
def throwErr {α : Type} (e : JsError) : M α := fun s t => (Except.error e, s, t)

/-- `try { m } catch (e) { h e }`. -/
def tryM {α : Type} (m : M α) (h : JsError → M α) : M α := fun s t =>
  match m s t with
  | (Except.ok a, s2, t2) => (Except.ok a, s2, t2)
  | (Except.error e, s2, t2) => h e s2 t2

/-- Tag a browser-dependency outcome as an external error. -/
def extRes {α : Type} : Except String α → Except JsError α
  | Except.ok a => Except.ok a
  | Except.error m => Except.error (JsError.ext m)

/-- A single call into the browser dependency: record the action, answer from
the response function applied to the extended trace. -/
def envOp {α : Type} (f : List Action → Except JsError α) (a : Action) : M α :=
  fun s t =>
    let t2 := t ++ [a]
    (f t2, s, t2)

def opLaunch (env : Env) : M Unit :=
  envOp (fun t => extRes (env.launch t)) Action.launch

def opNewPage (env : Env) : M Unit :=
  envOp (fun t => extRes (env.newPage t)) Action.newPage

def opSetViewport (env : Env) : M Unit :=
  envOp (fun t => extRes (env.setViewport t)) Action.setViewport

def opSetUserAgent (env : Env) : M Unit :=
  envOp (fun t => extRes (env.setUserAgent t)) Action.setUserAgent

def opGoto (env : Env) (url : String) : M Unit :=
  envOp (fun t => extRes (env.goto t url)) (Action.goto url)

def opWaitForSelector (env : Env) (sel : String) : M Unit :=
  envOp (fun t => extRes (env.waitForSelector t sel)) (Action.waitForSelector sel)

def opPageType (env : Env) (sel text : String) : M Unit :=
  envOp (fun t => extRes (env.pageType t sel text)) (Action.typeSelector sel text)

def opQuery (env : Env) (sel : String) : M (Option Element) :=
  envOp (fun t => extRes (env.query t sel)) (Action.query sel)

def opQueryAll (env : Env) (sel : String) : M (List Element) :=
  envOp (fun t => extRes (env.queryAll t sel)) (Action.queryAll sel)

def opKeyPress (env : Env) (key : String) : M Unit :=
  envOp (fun t => extRes (env.keyPress t key)) (Action.keyPress key)

def opKeyType (env : Env) (text : String) : M Unit :=
  envOp (fun t => extRes (env.keyType t text)) (Action.keyType text)

def opScreenshot (env : Env) (path : String) : M Unit :=
  envOp (fun t => extRes (env.screenshot t path)) (Action.screenshot path)

def opWaitForNavigation (env : Env) : M Unit :=
  envOp (fun t => extRes (env.waitForNavigation t)) Action.waitForNavigation

def opUrl (env : Env) : M String :=
  envOp (fun t => Except.ok (env.pageUrl t)) Action.readUrl

/-- `this.browser.close().catch(e => logger.error(...))`: the close failure is
swallowed (logged only), never surfaced. -/
def opCloseCaught (env : Env) : M Unit :=
  envOp
    (fun t =>
      match env.closeBrowser t with
      | Except.ok _ => Except.ok ()
      | Except.error _ => Except.ok ())
    Action.closeBrowser

/-! ### JavaScript value helpers -/

/-- Does `pat` occur at the start of `hay`? -/
def charsHasPre : List Char → List Char → Bool
  | _, [] => true
  | [], _ :: _ => false
  | a :: as, b :: bs => a == b && charsHasPre as bs

/-- Does `pat` occur anywhere in the character list? -/
def charsContains (pat : List Char) : List Char → Bool
  | [] => pat.isEmpty
  | c :: rest => charsHasPre (c :: rest) pat || charsContains pat rest

/-- `s.includes(pat)` on JavaScript strings. -/
def jsIncludes (s pat : String) : Bool := charsContains pat.toList s.toList

/-- Truthiness test `!x` for an optional string: absent and empty strings are
falsy. -/
def strFalsy : Option String → Bool
  | none => true
  | some v => v.isEmpty

/-- `x || d` on an optional number: absent and `0` are falsy and give the
default, every other value is kept. -/
def jsOr (x : Option Int) (d : Int) : Int :=
  match x with
  | none => d
  | some v => if v = 0 then d else v

/-- `xs?.length` as a truthiness test: true exactly for a present, non-empty
list. -/
def listTruthy : Option (List String) → Bool
  | none => false
  | some xs => !xs.isEmpty

/-! ### Selector lists (verbatim from the source) -/

/-- Login success indicators (`browserLogin`). -/
def successIndicators : List String :=
  ["[data-testid=\"primaryColumn\"]",
   "[aria-label=\"Home timeline\"]",
   "[aria-label=\"Timeline: Home\"]",
   "[data-testid=\"SideNav_NewTweet_Button\"]"]

/-- Compose-trigger selectors (`postTweetWithBrowser`). -/
def composeSelectors : List String :=
  ["[data-testid=\"SideNav_NewTweet_Button\"]",
   "[aria-label=\"Tweet\"]",
   "[aria-label=\"Post\"]",
   "a[href=\"/compose/tweet\"]"]

/-- New-post composer textarea selectors (`postTweetWithBrowser`). -/
def textareaSelectors : List String :=
  ["[data-testid=\"tweetTextarea_0\"]",
   "[aria-label=\"Tweet text\"]",
   "[aria-label=\"Post text\"]",
   "[role=\"textbox\"]"]

/-- New-post submit button selectors (`postTweetWithBrowser`). -/
def tweetButtonSelectors : List String :=
  ["[data-testid=\"tweetButtonInline\"]",
   "div[data-testid=\"tweetButton\"]",
   "button[data-testid=\"tweetButton\"]",
   "[aria-label=\"Tweet\"]",
   "[aria-label=\"Post\"]",
   "div[role=\"button\"]:has-text(\"Tweet\")",
   "div[role=\"button\"]:has-text(\"Post\")",
   "button:enabled:has-text(\"Post\")",
   "button:enabled:has-text(\"Tweet\")"]

/-- Reply-trigger selectors (`postReplyWithBrowser`). -/
def replyButtonSelectors : List String :=
  ["[data-testid=\"reply\"]",
   "[aria-label=\"Reply\"]",
   "div[role=\"button\"][data-testid=\"reply\"]"]

/-- Reply composer textarea selectors (`postReplyWithBrowser`). -/
def replyTextareaSelectors : List String :=
  ["[data-testid=\"tweetTextarea_0\"]",
   "[aria-label=\"Tweet text\"]",
   "[aria-label=\"Reply text\"]",
   "[role=\"textbox\"]"]

/-- Reply submit button selectors (`postReplyWithBrowser`). -/
def replyTweetButtonSelectors : List String :=
  ["[data-testid=\"tweetButtonInline\"]",
   "[data-testid=\"tweetButton\"]",
   "div[role=\"button\"]:has-text(\"Reply\")",
   "div[role=\"button\"]:has-text(\"Tweet\")"]

/-! ### Scan loops
Each loop is one of the source's `for` loops over selectors or element
handles.  A `try`/`catch` whose `catch` is `continue` (or empty) becomes
`tryM _ (fun _ => pure false)`. -/

/-- Enumerate element handles, read each one's text, click the first whose
text contains one of `pats`; failures on a handle skip to the next handle
(login Next / Log in loops, reply text scan: no disabled check). -/
def clickFirstWithText (pats : List String) : List Element → M Bool
  | [] => M.pure false
  | el :: rest => do
      let r ← tryM
        (do
          let text ← envOp (fun _ => extRes el.textContent) Action.evalTextContent
          match text with
          | some txt =>
              if pats.any (fun p => jsIncludes txt p) then do
                envOp (fun _ => extRes el.click) Action.clickElem
                pure true
              else pure false
          | none => pure false)
        (fun _ => pure false)
      if r then pure true else clickFirstWithText pats rest

/-- Check selectors in order, stopping at the first that matches; a failing
query skips to the next selector (login success-indicator loop). -/
def anySelectorMatches (env : Env) : List String → M Bool
  | [] => M.pure false
  | sel :: rest => do
      let r ← tryM
        (do
          let el ← opQuery env sel
          pure el.isSome)
        (fun _ => pure false)
      if r then pure true else anySelectorMatches env rest

/-- Query selectors in order and click the first element found (compose
trigger loop, reply trigger loop). -/
def clickFirstSelector (env : Env) : List String → M Bool
  | [] => M.pure false
  | sel :: rest => do
      let r ← tryM
        (do
          let el? ← opQuery env sel
          match el? with
          | some el => do
              envOp (fun _ => extRes el.click) Action.clickElem
              pure true
          | none => pure false)
        (fun _ => pure false)
      if r then pure true else clickFirstSelector env rest

/-- Query textarea selectors in order; on the first hit click it and type the
content into the element (composer loops of the new-post and reply paths). -/
def typeIntoFirstTextarea (env : Env) (content : String) : List String → M Bool
  | [] => M.pure false
  | sel :: rest => do
      let r ← tryM
        (do
          let el? ← opQuery env sel
          match el? with
          | some el => do
              envOp (fun _ => extRes el.click) Action.clickElem
              envOp (fun _ => extRes (el.typeInto content)) (Action.typeElem content)
              pure true
          | none => pure false)
        (fun _ => pure false)
      if r then pure true else typeIntoFirstTextarea env content rest

/-- The placeholder prompts recognised by the new-post fallback. -/
def placeholderText (t : String) : Bool :=
  jsIncludes t "What\x27s happening?" ||
  jsIncludes t "What is happening?" ||
  jsIncludes t "What\x27s on your mind?"

/-- Scan div handles for a placeholder prompt; on a hit click it and type via
the keyboard.  A handle failure aborts the whole scan (the source wraps the
entire loop in a single try). -/
def findPlaceholderDiv (env : Env) (content : String) : List Element → M Bool
  | [] => M.pure false
  | el :: rest => do
      let text ← envOp (fun _ => extRes el.textContent) Action.evalTextContent
      match text with
      | some txt =>
          if placeholderText txt then do
            envOp (fun _ => extRes el.click) Action.clickElem
            opKeyType env content
            pure true
          else findPlaceholderDiv env content rest
      | none => findPlaceholderDiv env content rest

/-- New-post fallback (b): look for a block element showing the placeholder
prompt; any error makes the strategy fail quietly. -/
def placeholderScan (env : Env) (content : String) : M Bool :=
  tryM
    (do
      let divs ← opQueryAll env "div"
      findPlaceholderDiv env content divs)
    (fun _ => M.pure false)

/-- Query selectors in order, skip disabled elements, click the first enabled
hit (submit selector loops of the new-post and reply paths). -/
def clickFirstEnabledSelector (env : Env) : List String → M Bool
  | [] => M.pure false
  | sel :: rest => do
      let r ← tryM
        (do
          let el? ← opQuery env sel
          match el? with
          | some el => do
              let disabled ← envOp (fun _ => extRes el.isDisabled) Action.evalDisabled
              if disabled then pure false
              else do
                envOp (fun _ => extRes el.click) Action.clickElem
                pure true
          | none => pure false)
        (fun _ => pure false)
      if r then pure true else clickFirstEnabledSelector env rest

/-- Enumerate button-like handles, click the first whose text contains one of
`pats` and which is not disabled (new-post text scan). -/
def clickFirstButtonWithTextEnabled (pats : List String) : List Element → M Bool
  | [] => M.pure false
  | el :: rest => do
      let r ← tryM
        (do
          let text ← envOp (fun _ => extRes el.textContent) Action.evalTextContent
          match text with
          | some txt =>
              if pats.any (fun p => jsIncludes txt p) then do
                let disabled ← envOp (fun _ => extRes el.isDisabled) Action.evalDisabled
                if disabled then pure false
                else do
                  envOp (fun _ => extRes el.click) Action.clickElem
                  pure true
              else pure false
          | none => pure false)
        (fun _ => pure false)
      if r then pure true else clickFirstButtonWithTextEnabled pats rest

/-- New-post submit fallback: text scan of button-like elements with a
disabled-state check. -/
def textScanTweetButton (env : Env) (pats : List String) : M Bool :=
  tryM
    (do
      let buttons ← opQueryAll env "button, div[role=\"button\"]"
      clickFirstButtonWithTextEnabled pats buttons)
    (fun _ => M.pure false)

/-- Reply submit fallback: text scan for Reply/Tweet, with no disabled-state
check. -/
def replyTextScan (env : Env) : M Bool :=
  tryM
    (do
      let buttons ← opQueryAll env "button, div[role=\"button\"]"
      clickFirstWithText ["Reply", "Tweet"] buttons)
    (fun _ => M.pure false)

/-- New-post submit fallback: one in-page script that scans and clicks
atomically. -/
def evalScanTweetButton (env : Env) : M Bool :=
  tryM
    (envOp (fun t => extRes (env.evalFindTweetButton t)) Action.evalScript)
    (fun _ => M.pure false)

/-! ### Connector methods -/

/-- The constructor (`constructor(config)`): spread the given options, then
overwrite `pollInterval` with `config.pollInterval || 60000` and `headless`
with `config.headless !== false`. -/
def mkConfig (config : BrowserTwitterConnectorConfig) :
    BrowserTwitterConnectorConfig :=
  { config with
    pollInterval := some (jsOr config.pollInterval 60000)
    headless := some (config.headless != some false) }

/-- `setupMonitoring`: clear any existing timer and arm a repeating timer at
`this.config.pollInterval || 60000`.  The timer is modelled by storing its
interval; its tick body performs no browser work. -/
def setupMonitoring (config : BrowserTwitterConnectorConfig) : M Unit := do
  let pollInterval := jsOr config.pollInterval 60000
  modifyConn (fun s => { s with monitorInterval := some pollInterval })

/-- The `try` block of `browserLogin`.  Fixed waits are dropped; everything
else is step for step from the source. -/
def browserLoginBody (config : BrowserTwitterConnectorConfig) (env : Env)
    (username password email : String) : M Unit := do
  opGoto env "https://twitter.com/i/flow/login"
  let _ ← (if config.debug.getD false then opScreenshot env "twitter-login.png"
    else pure ())
  opWaitForSelector env "input[autocomplete=\"username\"]"
  opPageType env "input[autocomplete=\"username\"]" username
  let nextButtons ← opQueryAll env "[role=\"button\"]"
  let nextClicked ← clickFirstWithText ["Next"] nextButtons
  let _ ← (if !nextClicked then opKeyPress env "Enter" else pure ())
  let verifyInput ← opQuery env "input[data-testid=\"ocfEnterTextTextInput\"]"
  let _ ←
    (match verifyInput with
    | some vi => do
        let _ ← (if email.isEmpty then
          throwJs "Email verification required but no email provided"
          else pure ())
        envOp (fun _ => extRes (vi.typeInto email)) (Action.typeElem email)
        let verifyNextButtons ← opQueryAll env "[role=\"button\"]"
        let verifyNextClicked ← clickFirstWithText ["Next"] verifyNextButtons
        if !verifyNextClicked then opKeyPress env "Enter" else pure ()
    | none => pure ())
  opWaitForSelector env "input[name=\"password\"]"
  opPageType env "input[name=\"password\"]" password
  let loginButtons ← opQueryAll env "[role=\"button\"]"
  let loginClicked ← clickFirstWithText ["Log in", "Sign in"] loginButtons
  let _ ← (if !loginClicked then opKeyPress env "Enter" else pure ())
  opWaitForNavigation env
  let _ ← (if config.debug.getD false then
    opScreenshot env "twitter-logged-in.png" else pure ())
  let loginSuccessful ← anySelectorMatches env successIndicators
  let _ ←
    (if !loginSuccessful then do
      let currentUrl ← opUrl env
      if jsIncludes currentUrl "login" || jsIncludes currentUrl "signin" then
        throwJs "Login failed - still on login page"
      else pure ()
    else pure ())
  opGoto env "https://twitter.com/home"

/-- The `catch` block of `browserLogin`: optional error screenshot (an error
raised there propagates instead, as in the source), then the original error is
re-thrown wrapped as a new error with a `Twitter login failed:` message. -/
def browserLoginCatch (config : BrowserTwitterConnectorConfig) (env : Env)
    (e : JsError) : M Unit := do
  let st ← getConn
  let _ ← (if st.page.isSome && config.debug.getD false then
    opScreenshot env "twitter-login-error.png" else pure ())
  throwErr (JsError.code ("Twitter login failed: " ++ e.message))

/-- `browserLogin(username, password, email)`. -/
def browserLogin (config : BrowserTwitterConnectorConfig) (env : Env)
    (username password email : String) : M Unit := do
  let st ← getConn
  if st.page.isNone then throwJs "Browser not initialized"
  else
    tryM (browserLoginBody config env username password email)
      (browserLoginCatch config env)

/-- Store the identity argument of `connect`: the two fields are mutually
exclusive. -/
def assignIdentity (isAgent : Bool) (s : Conn) : Conn :=
  if isAgent then { s with agent := some (), swarm := none }
  else { s with swarm := some (), agent := none }

/-- The `try` block of `connect`: credentials check, browser launch, page
creation, viewport and user agent, login, connected flag, optional
monitoring. -/
def connectBody (config : BrowserTwitterConnectorConfig) (env : Env) :
    M Unit := do
  let _ ← (if strFalsy config.username || strFalsy config.password then
    throwJs "Twitter username and password are required" else pure ())
  opLaunch env
  modifyConn (fun s => { s with browser := some () })
  opNewPage env
  modifyConn (fun s => { s with page := some () })
  opSetViewport env
  opSetUserAgent env
  browserLogin config env (config.username.getD "") (config.password.getD "")
    (config.email.getD "")
  modifyConn (fun s => { s with connected := true })
  if listTruthy config.monitorKeywords || listTruthy config.monitorUsers then
    setupMonitoring config
  else pure ()

/-- The `catch` block of `connect`: close the browser if one is open (close
errors are swallowed), null out the handles, re-throw the caught error. -/
def connectCleanup (env : Env) (e : JsError) : M Unit := do
  let st ← getConn
  let _ ←
    (if st.browser.isSome then do
      opCloseCaught env
      modifyConn (fun s => { s with browser := none, page := none })
    else pure ())
  throwErr e

/-- `connect(agent)`. -/
def connect (config : BrowserTwitterConnectorConfig) (env : Env)
    (isAgent : Bool) : M Unit := do
  modifyConn (assignIdentity isAgent)
  tryM (connectBody config env) (connectCleanup env)

/-- `disconnect()`: no-op when not connected; otherwise cancel the timer,
close the browser (close errors swallowed), clear state. -/
def disconnect (env : Env) : M Unit := do
  let st ← getConn
  if !st.connected then pure ()
  else
    tryM
      (do
        let st1 ← getConn
        let _ ← (if st1.monitorInterval.isSome then
          modifyConn (fun s => { s with monitorInterval := none })
          else pure ())
        let st2 ← getConn
        let _ ←
          (if st2.browser.isSome then do
            opCloseCaught env
            modifyConn (fun s => { s with browser := none, page := none })
          else pure ())
        modifyConn (fun s => { s with connected := false }))
      throwErr

/-- The `try` block of `postTweetWithBrowser`.  The retry loop after direct
navigation differs from the first composer loop only in un-modelled fixed
waits, so both are `typeIntoFirstTextarea`. -/
def postTweetBody (config : BrowserTwitterConnectorConfig) (env : Env)
    (content : String) : M Unit := do
  opGoto env "https://twitter.com/home"
  let _ ← (if config.debug.getD false then
    opScreenshot env "twitter-home-before-tweet.png" else pure ())
  let _composeClicked ← clickFirstSelector env composeSelectors
  let composerFound ← typeIntoFirstTextarea env content textareaSelectors
  let composerFound ←
    (if !composerFound then placeholderScan env content
    else pure composerFound)
  let composerFound ←
    (if !composerFound then do
      opGoto env "https://twitter.com/compose/tweet"
      let _ ← (if config.debug.getD false then
        opScreenshot env "twitter-compose-direct.png" else pure ())
      typeIntoFirstTextarea env content textareaSelectors
    else pure composerFound)
  let _ ←
    (if !composerFound then do
      let _ ← (if config.debug.getD false then
        opScreenshot env "twitter-composer-not-found.png" else pure ())
      throwJs "Could not find or use the tweet composer"
    else pure ())
  let _ ← (if config.debug.getD false then
    opScreenshot env "twitter-composed-tweet.png" else pure ())
  let tweetButtonClicked ← clickFirstEnabledSelector env tweetButtonSelectors
  let tweetButtonClicked ←
    (if !tweetButtonClicked then textScanTweetButton env ["Tweet", "Post"]
    else pure tweetButtonClicked)
  let tweetButtonClicked ←
    (if !tweetButtonClicked then evalScanTweetButton env
    else pure tweetButtonClicked)
  let _ ← (if !tweetButtonClicked then opKeyPress env "Enter" else pure ())
  if config.debug.getD false then opScreenshot env "twitter-after-posting.png"
  else pure ()

/-- `postTweetWithBrowser(content)`; its catch logs and re-throws the same
error. -/
def postTweetWithBrowser (config : BrowserTwitterConnectorConfig) (env : Env)
    (content : String) : M Unit := do
  let st ← getConn
  if st.page.isNone then throwJs "Browser not initialized"
  else tryM (postTweetBody config env content) throwErr

/-- The `try` block of `postReplyWithBrowser`. -/
def postReplyBody (config : BrowserTwitterConnectorConfig) (env : Env)
    (content tweetId : String) : M Unit := do
  opGoto env ("https://twitter.com/i/status/" ++ tweetId)
  let _ ← (if config.debug.getD false then
    opScreenshot env "twitter-reply-page.png" else pure ())
  let replyButtonClicked ← clickFirstSelector env replyButtonSelectors
  let _ ← (if !replyButtonClicked then
    throwJs "Could not find or click reply button" else pure ())
  let textareaFound ← typeIntoFirstTextarea env content replyTextareaSelectors
  let textareaFound ←
    (if !textareaFound then do
      opKeyType env content
      pure true
    else pure textareaFound)
  let _ ← (if !textareaFound then
    throwJs "Could not find or use reply textarea" else pure ())
  let _ ← (if config.debug.getD false then
    opScreenshot env "twitter-reply-composed.png" else pure ())
  let replyTweetButtonClicked ←
    clickFirstEnabledSelector env replyTweetButtonSelectors
  let replyTweetButtonClicked ←
    (if !replyTweetButtonClicked then replyTextScan env
    else pure replyTweetButtonClicked)
  let _ ← (if !replyTweetButtonClicked then opKeyPress env "Enter" else pure ())
  if config.debug.getD false then opScreenshot env "twitter-after-reply.png"
  else pure ()

/-- `postReplyWithBrowser(content, tweetId)`; its catch logs and re-throws the
same error. -/
def postReplyWithBrowser (config : BrowserTwitterConnectorConfig) (env : Env)
    (content tweetId : String) : M Unit := do
  let st ← getConn
  if st.page.isNone then throwJs "Browser not initialized"
  else tryM (postReplyBody config env content tweetId) throwErr

/-- `tweet(content, replyToId)`.  `now` is the value of `Date.now()`. -/
def tweet (config : BrowserTwitterConnectorConfig) (env : Env)
    (content : String) (replyToId : Option String) (now : Nat) : M String := do
  let st ← getConn
  if !st.connected || st.page.isNone || st.browser.isNone then
    throwJs "Not connected to Twitter"
  else
    tryM
      (do
        let tweetId := "tweet_posted_" ++ toString now
        match replyToId with
        | some rid => do
            postReplyWithBrowser config env content rid
            pure ("reply_to_" ++ rid ++ "_posted")
        | none => do
            postTweetWithBrowser config env content
            let st2 ← getConn
            let _ ← (if config.debug.getD false && st2.page.isSome then
              opScreenshot env "twitter-tweet-success.png" else pure ())
            pure tweetId)
      (fun e => do
        let st2 ← getConn
        let _ ← (if st2.page.isSome && config.debug.getD false then
          opScreenshot env "twitter-tweet-error.png" else pure ())
        throwErr e)

/-! ### Semantic predicates used in the verification -/

/-- `m` never changes the connector state. -/
def StatePres {α : Type} (m : M α) : Prop := ∀ s t, (m s t).2.1 = s

/-- `m` always returns normally and never changes the connector state. -/
def Clean {α : Type} (m : M α) : Prop :=
  ∀ s t, ∃ a t2, m s t = (Except.ok a, s, t2)

/-- `m` can never stop with the connector-raised error `msg`. -/
def NeverCodeErr (msg : String) {α : Type} (m : M α) : Prop :=
  ∀ s t, (m s t).1 ≠ Except.error (JsError.code msg)

/-- Every normal result of `m` satisfies `P`. -/
def OkImplies {α : Type} (m : M α) (P : α → Prop) : Prop :=
  ∀ s t a s2 t2, m s t = (Except.ok a, s2, t2) → P a

/-! ### Concrete inputs used by witnesses and counterexamples -/

/-- An element handle on which every operation succeeds; its text is `Tweet`
and it is enabled. -/
def elemOk : Element :=
  { textContent := Except.ok (some "Tweet"), click := Except.ok ()
    typeInto := fun _ => Except.ok (), isDisabled := Except.ok false }

/-- An element handle with text `Tweet` that reports itself disabled. -/
def elemDisTweet : Element :=
  { textContent := Except.ok (some "Tweet"), click := Except.ok ()
    typeInto := fun _ => Except.ok (), isDisabled := Except.ok true }

/-- A browser in which every operation succeeds, every single-selector query
finds nothing, every multi-element query returns no handles, and the current
URL is `url0`. -/
def envNone (url0 : String) : Env :=
  { launch := fun _ => Except.ok (), newPage := fun _ => Except.ok ()
    setViewport := fun _ => Except.ok (), setUserAgent := fun _ => Except.ok ()
    closeBrowser := fun _ => Except.ok ()
    goto := fun _ _ => Except.ok ()
    waitForSelector := fun _ _ => Except.ok ()
    pageType := fun _ _ _ => Except.ok ()
    query := fun _ _ => Except.ok none
    queryAll := fun _ _ => Except.ok []
    keyPress := fun _ _ => Except.ok (), keyType := fun _ _ => Except.ok ()
    screenshot := fun _ _ => Except.ok ()
    waitForNavigation := fun _ => Except.ok ()
    pageUrl := fun _ => url0
    evalFindTweetButton := fun _ => Except.ok false }

/-- A browser in which every query finds an enabled `Tweet` element and every
operation succeeds (posting succeeds via the first selectors). -/
def envOk : Env :=
  { envNone "https://twitter.com/home" with
    query := fun _ _ => Except.ok (some elemOk) }

/-- A browser in which navigation fails and closing the browser fails too. -/
def envFail : Env :=
  { envNone "https://twitter.com/home" with
    goto := fun _ _ => Except.error "net down"
    closeBrowser := fun _ => Except.error "close boom" }

/-- A browser in which only the reply trigger exists: every composer textarea
query and every submit query finds nothing. -/
def envKb : Env :=
  { envNone "https://twitter.com/home" with
    query := fun _ sel =>
      if sel = "[data-testid=\"reply\"]" then Except.ok (some elemOk)
      else Except.ok none }

/-- A browser in which the reply trigger and the first composer textarea
exist, no submit selector matches, and the only button-like element is a
disabled element with text `Tweet`. -/
def envDis : Env :=
  { envNone "https://twitter.com/home" with
    query := fun _ sel =>
      if sel = "[data-testid=\"reply\"]" then Except.ok (some elemOk)
      else if sel = "[data-testid=\"tweetTextarea_0\"]" then
        Except.ok (some elemOk)
      else Except.ok none
    queryAll := fun _ sel =>
      if sel = "button, div[role=\"button\"]" then Except.ok [elemDisTweet]
      else Except.ok [] }

/-- A configuration with credentials and no debug mode. -/
def cfgP : BrowserTwitterConnectorConfig :=
  { username := some "user", password := some "pw" }

/-- A configuration with no credentials at all. -/
def cfgNoCred : BrowserTwitterConnectorConfig := {}

/-- The state of a successfully connected connector. -/
def stConn : Conn :=
  { agent := some (), swarm := none, browser := some (), page := some ()
    connected := true, monitorInterval := none }

/-! ### Monad run lemmas -/

theorem bind_is_mbind {α β : Type} (m : M α) (f : α → M β) :
    m >>= f = M.bind m f := rfl

theorem pure_is_mpure {α : Type} (a : α) : (pure a : M α) = M.pure a := rfl

theorem bind_ok {α β : Type} {m : M α} {f : α → M β} {s t a s2 t2}
    (h : m s t = (Except.ok a, s2, t2)) : M.bind m f s t = f a s2 t2 := by
  unfold M.bind
  rw [h]

theorem bind_err {α β : Type} {m : M α} {f : α → M β} {s t e s2 t2}
    (h : m s t = (Except.error e, s2, t2)) :
    M.bind m f s t = (Except.error e, s2, t2) := by
  unfold M.bind
  rw [h]

theorem tryM_ok {α : Type} {m : M α} {hnd : JsError → M α} {s t a s2 t2}
    (h : m s t = (Except.ok a, s2, t2)) : tryM m hnd s t = (Except.ok a, s2, t2) := by
  unfold tryM
  rw [h]

theorem tryM_err {α : Type} {m : M α} {hnd : JsError → M α} {s t e s2 t2}
    (h : m s t = (Except.error e, s2, t2)) : tryM m hnd s t = hnd e s2 t2 := by
  unfold tryM
  rw [h]

/-- A `catch` block that just re-throws the caught error is invisible. -/
theorem tryM_throwErr {α : Type} (m : M α) : tryM m throwErr = m := by
  funext s t
  rcases h : m s t with ⟨r, s2, t2⟩
  cases r with
  | ok a => rw [tryM_ok h]
  | error e => rw [tryM_err h]; rfl

theorem envOp_run {α : Type} (f : List Action → Except JsError α) (a : Action)
    (s : Conn) (t : List Action) : envOp f a s t = (f (t ++ [a]), s, t ++ [a]) := rfl

/-! ### State preservation -/

theorem statePres_mpure {α : Type} (a : α) : StatePres (M.pure a) :=
  fun _ _ => rfl

theorem statePres_pure {α : Type} (a : α) : StatePres (pure a : M α) :=
  fun _ _ => rfl

theorem statePres_envOp {α : Type} (f : List Action → Except JsError α)
    (a : Action) : StatePres (envOp f a) := fun _ _ => rfl

theorem statePres_getConn : StatePres getConn := fun _ _ => rfl

theorem statePres_throwJs {α : Type} (msg : String) :
    StatePres (throwJs msg : M α) := fun _ _ => rfl

theorem statePres_throwErr {α : Type} (e : JsError) :
    StatePres (throwErr e : M α) := fun _ _ => rfl

theorem statePres_bind {α β : Type} {m : M α} {f : α → M β}
    (hm : StatePres m) (hf : ∀ a, StatePres (f a)) : StatePres (M.bind m f) := by
  intro s t
  rcases h : m s t with ⟨r, s2, t2⟩
  have hs : s2 = s := by have h2 := hm s t; rw [h] at h2; exact h2
  cases r with
  | ok a =>
      calc (M.bind m f s t).2.1 = (f a s2 t2).2.1 := by rw [bind_ok h]
        _ = s2 := hf a s2 t2
        _ = s := hs
  | error e =>
      calc (M.bind m f s t).2.1 = s2 := by rw [bind_err h]
        _ = s := hs

theorem statePres_tryM {α : Type} {m : M α} {hnd : JsError → M α}
    (hm : StatePres m) (hh : ∀ e, StatePres (hnd e)) : StatePres (tryM m hnd) := by
  intro s t
  rcases h : m s t with ⟨r, s2, t2⟩
  have hs : s2 = s := by have h2 := hm s t; rw [h] at h2; exact h2
  cases r with
  | ok a =>
      calc (tryM m hnd s t).2.1 = s2 := by rw [tryM_ok h]
        _ = s := hs
  | error e =>
      calc (tryM m hnd s t).2.1 = (hnd e s2 t2).2.1 := by rw [tryM_err h]
        _ = s2 := hh e s2 t2
        _ = s := hs

theorem statePres_ite {α : Type} (c : Prop) [Decidable c] {m1 m2 : M α}
    (h1 : StatePres m1) (h2 : StatePres m2) : StatePres (if c then m1 else m2) := by
  by_cases h : c
  · rw [if_pos h]; exact h1
  · rw [if_neg h]; exact h2

/-! ### Clean computations -/

theorem clean_mpure {α : Type} (a : α) : Clean (M.pure a) :=
  fun _ t => ⟨a, t, rfl⟩

theorem clean_pure {α : Type} (a : α) : Clean (pure a : M α) :=
  fun _ t => ⟨a, t, rfl⟩

theorem clean_bind {α β : Type} {m : M α} {f : α → M β}
    (hm : Clean m) (hf : ∀ a, Clean (f a)) : Clean (M.bind m f) := by
  intro s t
  obtain ⟨a, t2, h⟩ := hm s t
  obtain ⟨b, t3, h2⟩ := hf a s t2
  exact ⟨b, t3, by rw [bind_ok h]; exact h2⟩

theorem clean_ite {α : Type} (c : Prop) [Decidable c] {m1 m2 : M α}
    (h1 : Clean m1) (h2 : Clean m2) : Clean (if c then m1 else m2) := by
  by_cases h : c
  · rw [if_pos h]; exact h1
  · rw [if_neg h]; exact h2

/-- A loop iteration body: any state-preserving computation wrapped in a
`try` whose catch yields a default value is clean. -/
theorem clean_tryM_pure {α : Type} {m : M α} (dflt : α) (hm : StatePres m) :
    Clean (tryM m (fun _ => pure dflt)) := by
  intro s t
  rcases h : m s t with ⟨r, s2, t2⟩
  have hs : s2 = s := by have h2 := hm s t; rw [h] at h2; exact h2
  cases r with
  | ok a => exact ⟨a, t2, by rw [tryM_ok h, hs]⟩
  | error e => exact ⟨dflt, t2, by rw [tryM_err h, hs]; rfl⟩

theorem statePres_of_clean {α : Type} {m : M α} (h : Clean m) : StatePres m := by
  intro s t
  obtain ⟨a, t2, h2⟩ := h s t
  rw [h2]

/-! ### The scan loops are clean: they always return a boolean and leave the
connector state unchanged, whatever the browser does. -/

theorem clean_clickFirstWithText (pats : List String) (els : List Element) :
    Clean (clickFirstWithText pats els) := by
  induction els with
  | nil => exact clean_mpure false
  | cons el rest ih =>
      rw [clickFirstWithText]
      apply clean_bind
      · apply clean_tryM_pure
        apply statePres_bind (statePres_envOp _ _)
        intro text
        cases text with
        | some txt =>
            apply statePres_ite
            · exact statePres_bind (statePres_envOp _ _)
                (fun _ => statePres_pure _)
            · exact statePres_pure _
        | none => exact statePres_pure _
      · intro r
        cases r with
        | false => simpa using ih
        | true => simpa using clean_pure true

theorem clean_anySelectorMatches (env : Env) (sels : List String) :
    Clean (anySelectorMatches env sels) := by
  induction sels with
  | nil => exact clean_mpure false
  | cons sel rest ih =>
      rw [anySelectorMatches]
      apply clean_bind
      · apply clean_tryM_pure
        exact statePres_bind (statePres_envOp _ _) (fun _ => statePres_pure _)
      · intro r
        cases r with
        | false => simpa using ih
        | true => simpa using clean_pure true

theorem clean_clickFirstSelector (env : Env) (sels : List String) :
    Clean (clickFirstSelector env sels) := by
  induction sels with
  | nil => exact clean_mpure false
  | cons sel rest ih =>
      rw [clickFirstSelector]
      apply clean_bind
      · apply clean_tryM_pure
        apply statePres_bind (statePres_envOp _ _)
        intro el?
        cases el? with
        | some el =>
            exact statePres_bind (statePres_envOp _ _)
              (fun _ => statePres_pure _)
        | none => exact statePres_pure _
      · intro r
        cases r with
        | false => simpa using ih
        | true => simpa using clean_pure true

theorem clean_typeIntoFirstTextarea (env : Env) (content : String)
    (sels : List String) : Clean (typeIntoFirstTextarea env content sels) := by
  induction sels with
  | nil => exact clean_mpure false
  | cons sel rest ih =>
      rw [typeIntoFirstTextarea]
      apply clean_bind
      · apply clean_tryM_pure
        apply statePres_bind (statePres_envOp _ _)
        intro el?
        cases el? with
        | some el =>
            exact statePres_bind (statePres_envOp _ _)
              (fun _ => statePres_bind (statePres_envOp _ _)
                (fun _ => statePres_pure _))
        | none => exact statePres_pure _
      · intro r
        cases r with
        | false => simpa using ih
        | true => simpa using clean_pure true

theorem statePres_findPlaceholderDiv (env : Env) (content : String)
    (els : List Element) : StatePres (findPlaceholderDiv env content els) := by
  induction els with
  | nil => exact statePres_mpure false
  | cons el rest ih =>
      rw [findPlaceholderDiv]
      apply statePres_bind (statePres_envOp _ _)
      intro text
      cases text with
      | some txt =>
          apply statePres_ite
          · exact statePres_bind (statePres_envOp _ _)
              (fun _ => statePres_bind (statePres_envOp _ _)
                (fun _ => statePres_pure _))
          · exact ih
      | none => exact ih

theorem clean_placeholderScan (env : Env) (content : String) :
    Clean (placeholderScan env content) := by
  apply clean_tryM_pure
  exact statePres_bind (statePres_envOp _ _)
    (fun divs => statePres_findPlaceholderDiv env content divs)

theorem clean_clickFirstEnabledSelector (env : Env) (sels : List String) :
    Clean (clickFirstEnabledSelector env sels) := by
  induction sels with
  | nil => exact clean_mpure false
  | cons sel rest ih =>
      rw [clickFirstEnabledSelector]
      apply clean_bind
      · apply clean_tryM_pure
        apply statePres_bind (statePres_envOp _ _)
        intro el?
        cases el? with
        | some el =>
            apply statePres_bind (statePres_envOp _ _)
            intro disabled
            apply statePres_ite
            · exact statePres_pure _
            · exact statePres_bind (statePres_envOp _ _)
                (fun _ => statePres_pure _)
        | none => exact statePres_pure _
      · intro r
        cases r with
        | false => simpa using ih
        | true => simpa using clean_pure true

theorem clean_clickFirstButtonWithTextEnabled (pats : List String)
    (els : List Element) : Clean (clickFirstButtonWithTextEnabled pats els) := by
  induction els with
  | nil => exact clean_mpure false
  | cons el rest ih =>
      rw [clickFirstButtonWithTextEnabled]
      apply clean_bind
      · apply clean_tryM_pure
        apply statePres_bind (statePres_envOp _ _)
        intro text
        cases text with
        | some txt =>
            apply statePres_ite
            · apply statePres_bind (statePres_envOp _ _)
              intro disabled
              apply statePres_ite
              · exact statePres_pure _
              · exact statePres_bind (statePres_envOp _ _)
                  (fun _ => statePres_pure _)
            · exact statePres_pure _
        | none => exact statePres_pure _
      · intro r
        cases r with
        | false => simpa using ih
        | true => simpa using clean_pure true

theorem clean_textScanTweetButton (env : Env) (pats : List String) :
    Clean (textScanTweetButton env pats) := by
  apply clean_tryM_pure
  exact statePres_bind (statePres_envOp _ _)
    (fun els => statePres_of_clean (clean_clickFirstButtonWithTextEnabled pats els))

theorem clean_replyTextScan (env : Env) : Clean (replyTextScan env) := by
  apply clean_tryM_pure
  exact statePres_bind (statePres_envOp _ _)
    (fun els => statePres_of_clean (clean_clickFirstWithText _ els))

theorem clean_evalScanTweetButton (env : Env) : Clean (evalScanTweetButton env) := by
  apply clean_tryM_pure
  exact statePres_envOp _ _

/-! ### The login procedure never changes the connector state (the fields are
only assigned by `connect`, `disconnect` and `setupMonitoring`). -/

theorem statePres_browserLoginBody (config : BrowserTwitterConnectorConfig)
    (env : Env) (username password email : String) :
    StatePres (browserLoginBody config env username password email) := by
  unfold browserLoginBody
  apply statePres_bind (statePres_envOp _ _)
  intro _
  apply statePres_bind
    (statePres_ite _ (statePres_envOp _ _) (statePres_pure _))
  intro _
  apply statePres_bind (statePres_envOp _ _)
  intro _
  apply statePres_bind (statePres_envOp _ _)
  intro _
  apply statePres_bind (statePres_envOp _ _)
  intro nextButtons
  apply statePres_bind (statePres_of_clean (clean_clickFirstWithText _ _))
  intro nextClicked
  apply statePres_bind
    (statePres_ite _ (statePres_envOp _ _) (statePres_pure _))
  intro _
  apply statePres_bind (statePres_envOp _ _)
  intro verifyInput
  apply statePres_bind
  · cases verifyInput with
    | some vi =>
        apply statePres_bind
          (statePres_ite _ (statePres_throwJs _) (statePres_pure _))
        intro _
        apply statePres_bind (statePres_envOp _ _)
        intro _
        apply statePres_bind (statePres_envOp _ _)
        intro verifyNextButtons
        apply statePres_bind
          (statePres_of_clean (clean_clickFirstWithText _ _))
        intro verifyNextClicked
        exact statePres_ite _ (statePres_envOp _ _) (statePres_pure _)
    | none => exact statePres_pure _
  intro _
  apply statePres_bind (statePres_envOp _ _)
  intro _
  apply statePres_bind (statePres_envOp _ _)
  intro _
  apply statePres_bind (statePres_envOp _ _)
  intro loginButtons
  apply statePres_bind (statePres_of_clean (clean_clickFirstWithText _ _))
  intro loginClicked
  apply statePres_bind
    (statePres_ite _ (statePres_envOp _ _) (statePres_pure _))
  intro _
  apply statePres_bind (statePres_envOp _ _)
  intro _
  apply statePres_bind
    (statePres_ite _ (statePres_envOp _ _) (statePres_pure _))
  intro _
  apply statePres_bind (statePres_of_clean (clean_anySelectorMatches _ _))
  intro loginSuccessful
  apply statePres_bind
  · apply statePres_ite
    · apply statePres_bind (statePres_envOp _ _)
      intro currentUrl
      exact statePres_ite _ (statePres_throwJs _) (statePres_pure _)
    · exact statePres_pure _
  intro _
  exact statePres_envOp _ _

theorem statePres_browserLoginCatch (config : BrowserTwitterConnectorConfig)
    (env : Env) (e : JsError) : StatePres (browserLoginCatch config env e) := by
  unfold browserLoginCatch
  apply statePres_bind statePres_getConn
  intro st
  apply statePres_bind
    (statePres_ite _ (statePres_envOp _ _) (statePres_pure _))
  intro _
  exact statePres_throwErr _

theorem statePres_browserLogin (config : BrowserTwitterConnectorConfig)
    (env : Env) (username password email : String) :
    StatePres (browserLogin config env username password email) := by
  unfold browserLogin
  apply statePres_bind statePres_getConn
  intro st
  apply statePres_ite
  · exact statePres_throwJs _
  · exact statePres_tryM (statePres_browserLoginBody config env username password email)
      (statePres_browserLoginCatch config env)

/-! ### Which connector-raised errors a computation can produce -/

theorem ne_mpure {α : Type} (msg : String) (a : α) :
    NeverCodeErr msg (M.pure a) := by
  intro s t h
  simp [M.pure] at h

theorem ne_of_clean {α : Type} (msg : String) {m : M α} (h : Clean m) :
    NeverCodeErr msg m := by
  intro s t hcontra
  obtain ⟨a, t2, h2⟩ := h s t
  rw [h2] at hcontra
  simp at hcontra

theorem ne_envOp_ext {α : Type} (msg : String)
    (g : List Action → Except String α) (a : Action) :
    NeverCodeErr msg (envOp (fun t => extRes (g t)) a) := by
  intro s t h
  rw [envOp_run] at h
  rcases hg : g (t ++ [a]) with v | m2 <;> simp [hg, extRes] at h

theorem ne_getConn (msg : String) : NeverCodeErr msg getConn := by
  intro s t h
  simp [getConn] at h

theorem ne_modifyConn (msg : String) (f : Conn → Conn) :
    NeverCodeErr msg (modifyConn f) := by
  intro s t h
  simp [modifyConn] at h

theorem ne_throwJs {α : Type} (msg msg2 : String) (hne : msg2 ≠ msg) :
    NeverCodeErr msg (throwJs msg2 : M α) := by
  intro s t h
  simp [throwJs] at h
  exact hne h

theorem ne_throwErr {α : Type} (msg : String) (e : JsError)
    (hne : e ≠ JsError.code msg) : NeverCodeErr msg (throwErr e : M α) := by
  intro s t h
  simp [throwErr] at h
  exact hne h

theorem ne_bind {α β : Type} (msg : String) {m : M α} {f : α → M β}
    (hm : NeverCodeErr msg m) (hf : ∀ a, NeverCodeErr msg (f a)) :
    NeverCodeErr msg (M.bind m f) := by
  intro s t h
  rcases h2 : m s t with ⟨r, s2, t2⟩
  cases r with
  | ok a => rw [bind_ok h2] at h; exact hf a s2 t2 h
  | error e =>
      rw [bind_err h2] at h
      simp at h
      have h3 := hm s t
      rw [h2] at h3
      rw [h] at h3
      exact h3 rfl

theorem ne_bind_okImplies {α β : Type} (msg : String) {m : M α} {f : α → M β}
    (P : α → Prop) (hm : NeverCodeErr msg m) (hok : OkImplies m P)
    (hf : ∀ a, P a → NeverCodeErr msg (f a)) :
    NeverCodeErr msg (M.bind m f) := by
  intro s t h
  rcases h2 : m s t with ⟨r, s2, t2⟩
  cases r with
  | ok a => rw [bind_ok h2] at h; exact hf a (hok s t a s2 t2 h2) s2 t2 h
  | error e =>
      rw [bind_err h2] at h
      simp at h
      have h3 := hm s t
      rw [h2] at h3
      rw [h] at h3
      exact h3 rfl

theorem ne_ite {α : Type} (msg : String) (c : Prop) [Decidable c] {m1 m2 : M α}
    (h1 : NeverCodeErr msg m1) (h2 : NeverCodeErr msg m2) :
    NeverCodeErr msg (if c then m1 else m2) := by
  by_cases h : c
  · rw [if_pos h]; exact h1
  · rw [if_neg h]; exact h2

theorem ne_tryM {α : Type} (msg : String) {m : M α} {hnd : JsError → M α}
    (hm : NeverCodeErr msg m)
    (hh : ∀ e, e ≠ JsError.code msg → NeverCodeErr msg (hnd e)) :
    NeverCodeErr msg (tryM m hnd) := by
  intro s t h
  rcases h2 : m s t with ⟨r, s2, t2⟩
  cases r with
  | ok a => rw [tryM_ok h2] at h; simp at h
  | error e =>
      have hne : e ≠ JsError.code msg := by
        intro hEq
        have h3 := hm s t
        rw [h2] at h3
        rw [hEq] at h3
        exact h3 rfl
      rw [tryM_err h2] at h
      exact hh e hne s2 t2 h

theorem okImplies_mpure {α : Type} (a : α) :
    OkImplies (M.pure a) (fun b => b = a) := by
  intro s t b s2 t2 h
  simp [M.pure] at h
  exact h.1.symm

theorem okImplies_bind_pure_const {α β : Type} (m : M α) (c : β) :
    OkImplies (M.bind m (fun _ => M.pure c)) (fun b => b = c) := by
  intro s t b s2 t2 h
  rcases h2 : m s t with ⟨r, sr, tr⟩
  cases r with
  | ok x =>
      rw [bind_ok h2] at h
      simp [M.pure] at h
      exact h.1.symm
  | error e =>
      rw [bind_err h2] at h
      simp at h

/-! ### Inversion lemmas for normal results -/

theorem bind_ok_inv {α β : Type} {m : M α} {f : α → M β} {s t b}
    (h : (M.bind m f s t).1 = Except.ok b) :
    ∃ a, (m s t).1 = Except.ok a
      ∧ (f a (m s t).2.1 (m s t).2.2).1 = Except.ok b := by
  rcases h2 : m s t with ⟨r, s2, t2⟩
  cases r with
  | ok a =>
      rw [bind_ok h2] at h
      exact ⟨a, rfl, h⟩
  | error e =>
      rw [bind_err h2] at h
      simp at h

theorem tryM_ok_inv {α : Type} {m : M α} {hnd : JsError → M α} {s t a}
    (h : (tryM m hnd s t).1 = Except.ok a) :
    (m s t).1 = Except.ok a
      ∨ ∃ e, (m s t).1 = Except.error e
          ∧ (hnd e (m s t).2.1 (m s t).2.2).1 = Except.ok a := by
  rcases h2 : m s t with ⟨r, s2, t2⟩
  cases r with
  | ok v =>
      rw [tryM_ok h2] at h
      exact Or.inl h
  | error e =>
      rw [tryM_err h2] at h
      exact Or.inr ⟨e, rfl, h⟩

/-! ### The connect catch block, characterised -/

/-- Running the `catch` block of `connect`: whatever the browser close does,
the caught error is re-thrown unchanged; the handles are nulled exactly when a
browser was present, in which case one `close` call is recorded. -/
theorem connectCleanup_run (env : Env) (e : JsError) (s : Conn)
    (t : List Action) :
    connectCleanup env e s t =
      (Except.error e,
       if s.browser.isSome then { s with browser := none, page := none } else s,
       if s.browser.isSome then t ++ [Action.closeBrowser] else t) := by
  unfold connectCleanup
  show M.bind getConn _ s t = _
  rw [bind_ok (show getConn s t = (Except.ok s, s, t) from rfl)]
  rcases hB : s.browser with _ | u
  · simp [hB, M.bind, bind_is_mbind, pure_is_mpure, M.pure, throwErr]
  · rcases hcb : env.closeBrowser (t ++ [Action.closeBrowser]) with _ | msg <;>
      simp [hB, hcb, opCloseCaught, envOp, modifyConn, throwErr, M.bind,
        bind_is_mbind, pure_is_mpure, M.pure]

/-- Assigning the identity argument leaves every other connector field
unchanged. -/
theorem assignIdentity_fields (isAgent : Bool) (s : Conn) :
    (assignIdentity isAgent s).browser = s.browser
    ∧ (assignIdentity isAgent s).page = s.page
    ∧ (assignIdentity isAgent s).connected = s.connected := by
  cases isAgent <;> simp [assignIdentity]

/-! ### C6: connect without credentials -/

/-- C6: when the configuration lacks a username or a password (absent or
empty, both falsy), `connect` fails with the configuration error and never
launches a browser, creates a page or navigates; from any reachable state for
such a configuration (no browser handle can exist) the trace is completely
empty. -/
theorem c6_connect_missing_credentials (config : BrowserTwitterConnectorConfig)
    (env : Env) (isAgent : Bool) (s0 : Conn)
    (h : strFalsy config.username = true ∨ strFalsy config.password = true) :
    (connect config env isAgent s0 []).1 =
        Except.error (JsError.code "Twitter username and password are required")
    ∧ Action.launch ∉ (connect config env isAgent s0 []).2.2
    ∧ Action.newPage ∉ (connect config env isAgent s0 []).2.2
    ∧ (∀ u, Action.goto u ∉ (connect config env isAgent s0 []).2.2)
    ∧ (s0.browser = none → (connect config env isAgent s0 []).2.2 = []) := by
  have hcred : (strFalsy config.username || strFalsy config.password) = true := by
    rcases h with h | h <;> simp [h]
  have h2 : connectBody config env (assignIdentity isAgent s0) [] =
      (Except.error (JsError.code "Twitter username and password are required"),
       assignIdentity isAgent s0, []) := by
    unfold connectBody
    show M.bind _ _ _ [] = _
    rw [if_pos hcred]
    exact bind_err rfl
  have hrun : connect config env isAgent s0 [] =
      connectCleanup env
        (JsError.code "Twitter username and password are required")
        (assignIdentity isAgent s0) [] := by
    unfold connect
    show M.bind (modifyConn _) _ s0 [] = _
    rw [bind_ok (show modifyConn (assignIdentity isAgent) s0 [] =
      (Except.ok (), assignIdentity isAgent s0, []) from rfl)]
    exact tryM_err h2
  rw [hrun, connectCleanup_run]
  rw [(assignIdentity_fields isAgent s0).1]
  rcases hB : s0.browser with _ | u
  · simp
  · simp

/-- C6 witness: a fresh connector with an empty configuration. -/
theorem c6_connect_missing_credentials_witness :
    (connect cfgNoCred (envNone "u") true Conn.init []).1 =
        Except.error (JsError.code "Twitter username and password are required")
    ∧ (connect cfgNoCred (envNone "u") true Conn.init []).2.2 = [] :=
  ⟨(c6_connect_missing_credentials cfgNoCred (envNone "u") true Conn.init
      (Or.inl rfl)).1,
   (c6_connect_missing_credentials cfgNoCred (envNone "u") true Conn.init
      (Or.inl rfl)).2.2.2.2 rfl⟩

/-! ### C1: connect cleans up and re-throws the original error -/

/-- C1: whenever `connect` stops with an error, the browser handle has been
released; the error `connect` throws is exactly the outcome of its `try`
block, i.e. the error that triggered the cleanup (never replaced by anything
the cleanup does); and the `catch` block re-throws precisely the error it
caught, whatever the browser close returns (close failures are swallowed). -/
theorem c1_connect_cleanup (config : BrowserTwitterConnectorConfig)
    (env : Env) (isAgent : Bool) (s0 : Conn) :
    (∀ e st2 tr2,
        connect config env isAgent s0 [] = (Except.error e, st2, tr2) →
        st2.browser = none)
    ∧ (connect config env isAgent s0 []).1 =
        (connectBody config env (assignIdentity isAgent s0) []).1
    ∧ (∀ (e : JsError) (s : Conn) (t : List Action),
        (connectCleanup env e s t).1 = Except.error e) := by
  have hrun : connect config env isAgent s0 [] =
      tryM (connectBody config env) (connectCleanup env)
        (assignIdentity isAgent s0) [] := by
    unfold connect
    show M.bind (modifyConn _) _ s0 [] = _
    rw [bind_ok (show modifyConn (assignIdentity isAgent) s0 [] =
      (Except.ok (), assignIdentity isAgent s0, []) from rfl)]
  refine ⟨?_, ?_, ?_⟩
  · intro e st2 tr2 heq
    rw [hrun] at heq
    rcases hbody : connectBody config env (assignIdentity isAgent s0) []
      with ⟨r, s2, t2⟩
    cases r with
    | ok a =>
        rw [tryM_ok hbody] at heq
        simp at heq
    | error e2 =>
        rw [tryM_err hbody, connectCleanup_run] at heq
        have hst : st2 = (if s2.browser.isSome then
            { s2 with browser := none, page := none } else s2) :=
          (congrArg (fun p => p.2.1) heq).symm
        rw [hst]
        rcases hB : s2.browser with _ | u
        · simp [hB]
        · simp [hB]
  · rw [hrun]
    rcases hbody : connectBody config env (assignIdentity isAgent s0) []
      with ⟨r, s2, t2⟩
    cases r with
    | ok a => rw [tryM_ok hbody]
    | error e2 => rw [tryM_err hbody, connectCleanup_run]
  · intro e s t
    rw [connectCleanup_run]

/-- C1 witness: a browser whose navigation fails (`net down`) and whose close
fails too (`close boom`); connect throws the wrapped login error, untouched by
the failing close, and the browser handle is gone. -/
theorem c1_connect_cleanup_witness :
    (connect cfgP envFail true Conn.init []).2.1.browser = none
    ∧ (connectCleanup envFail (JsError.code "boom") stConn []).1 =
        Except.error (JsError.code "boom") :=
  ⟨(c1_connect_cleanup cfgP envFail true Conn.init).1
      (JsError.code "Twitter login failed: net down")
      ((connect cfgP envFail true Conn.init []).2.1)
      ((connect cfgP envFail true Conn.init []).2.2) rfl,
   (c1_connect_cleanup cfgP envFail true Conn.init).2.2
      (JsError.code "boom") stConn []⟩

/-- Tuple-level inversion of a bind: the producer either returned normally
and the continuation produced the result, or the producer itself stopped with
the error. -/
theorem bind_eq_inv {α β : Type} {m : M α} {f : α → M β} {s t r s2 t2}
    (h : M.bind m f s t = (r, s2, t2)) :
    (∃ a sm tm, m s t = (Except.ok a, sm, tm) ∧ f a sm tm = (r, s2, t2))
    ∨ (∃ e, m s t = (Except.error e, s2, t2) ∧ r = Except.error e) := by
  rcases h2 : m s t with ⟨rm, sm, tm⟩
  cases rm with
  | ok a =>
      rw [bind_ok h2] at h
      exact Or.inl ⟨a, sm, tm, rfl, h⟩
  | error e2 =>
      rw [bind_err h2] at h
      injection h with h1 hrest
      injection hrest with hs ht
      refine Or.inr ⟨e2, ?_, h1.symm⟩
      rw [hs, ht]

/-- Where the `try` block of `connect` can stop with an error: before the
launch assignment (state unchanged), after it (browser handle present), or
after the page assignment (both handles present).  Once `connected := true`
has been assigned no error can occur any more. -/
theorem connectBody_err_states (config : BrowserTwitterConnectorConfig)
    (env : Env) (s : Conn) (t : List Action) (e : JsError) (s2 : Conn)
    (t2 : List Action)
    (h : connectBody config env s t = (Except.error e, s2, t2)) :
    s2 = s ∨ s2 = { s with browser := some () }
      ∨ s2 = { s with browser := some (), page := some () } := by
  unfold connectBody at h
  by_cases hcred : (strFalsy config.username || strFalsy config.password) = true
  · rw [if_pos hcred] at h
    rcases bind_eq_inv h with ⟨a, sm, tm, hm, h⟩ | ⟨e2, hm, hr⟩
    · simp [throwJs] at hm
    · have hx : s = s2 := congrArg (fun p => p.2.1) hm
      exact Or.inl hx.symm
  · rw [if_neg hcred] at h
    rcases bind_eq_inv h with ⟨_, sm, tm, hm, h⟩ | ⟨e2, hm, hr⟩
    · have hx : s = sm := congrArg (fun p => p.2.1) hm
      subst hx
      rcases bind_eq_inv h with ⟨_, smA, tmA, hmA, h⟩ | ⟨eA, hmA, hrA⟩
      · have hx : s = smA := congrArg (fun p => p.2.1) hmA
        subst hx
        rcases bind_eq_inv h with ⟨_, smB, tmB, hmB, h⟩ | ⟨eB, hmB, hrB⟩
        · have hx : { s with browser := some () } = smB :=
            congrArg (fun p => p.2.1) hmB
          subst hx
          rcases bind_eq_inv h with ⟨_, smC, tmC, hmC, h⟩ | ⟨eC, hmC, hrC⟩
          · have hx : { s with browser := some () } = smC :=
              congrArg (fun p => p.2.1) hmC
            subst hx
            rcases bind_eq_inv h with ⟨_, smD, tmD, hmD, h⟩ | ⟨eD, hmD, hrD⟩
            · have hx : { s with browser := some (), page := some () } = smD :=
                congrArg (fun p => p.2.1) hmD
              subst hx
              rcases bind_eq_inv h with ⟨_, smE, tmE, hmE, h⟩ | ⟨eE, hmE, hrE⟩
              · have hx : { s with browser := some (), page := some () } = smE :=
                  congrArg (fun p => p.2.1) hmE
                subst hx
                rcases bind_eq_inv h with ⟨_, smF, tmF, hmF, h⟩ | ⟨eF, hmF, hrF⟩
                · have hx : { s with browser := some (), page := some () } = smF :=
                    congrArg (fun p => p.2.1) hmF
                  subst hx
                  rcases bind_eq_inv h with ⟨_, smG, tmG, hmG, h⟩ | ⟨eG, hmG, hrG⟩
                  · have h5 := statePres_browserLogin config env
                      (config.username.getD "") (config.password.getD "")
                      (config.email.getD "")
                      { s with browser := some (), page := some () } tmF
                    rw [hmG] at h5
                    have h6 : smG = { s with browser := some (), page := some () } := h5
                    subst h6
                    rcases bind_eq_inv h with ⟨_, smH, tmH, hmH, h⟩ | ⟨eH, hmH, hrH⟩
                    · have hx : { s with browser := some (), page := some (), connected := true } = smH :=
                        congrArg (fun p => p.2.1) hmH
                      subst hx
                      by_cases hmon : (listTruthy config.monitorKeywords
                          || listTruthy config.monitorUsers) = true
                      · rw [if_pos hmon] at h
                        simp [setupMonitoring, modifyConn] at h
                      · rw [if_neg hmon] at h
                        simp [pure_is_mpure, M.pure] at h
                    · simp [modifyConn] at hmH
                  · have h5 := statePres_browserLogin config env
                      (config.username.getD "") (config.password.getD "")
                      (config.email.getD "")
                      { s with browser := some (), page := some () } tmF
                    rw [hmG] at h5
                    have h6 : s2 = { s with browser := some (), page := some () } := h5
                    exact Or.inr (Or.inr h6)
                · have hx : { s with browser := some (), page := some () } = s2 :=
                    congrArg (fun p => p.2.1) hmF
                  exact Or.inr (Or.inr hx.symm)
              · have hx : { s with browser := some (), page := some () } = s2 :=
                  congrArg (fun p => p.2.1) hmE
                exact Or.inr (Or.inr hx.symm)
            · simp [modifyConn] at hmD
          · have hx : { s with browser := some () } = s2 :=
              congrArg (fun p => p.2.1) hmC
            exact Or.inr (Or.inl hx.symm)
        · simp [modifyConn] at hmB
      · have hx : s = s2 := congrArg (fun p => p.2.1) hmA
        exact Or.inl hx.symm
    · simp [pure_is_mpure, M.pure] at hm

/-- `disconnect` on a connector that is not connected returns at once: no
error, no state change, no browser action. -/
theorem disconnect_not_connected (env : Env) (st : Conn)
    (h : st.connected = false) :
    disconnect env st [] = (Except.ok (), st, []) := by
  unfold disconnect
  show M.bind getConn _ st [] = _
  rw [bind_ok (show getConn st [] = (Except.ok st, st, []) from rfl)]
  rw [if_pos (show (!st.connected) = true by rw [h]; rfl)]
  rfl

/-! ### More run lemmas -/

theorem mbind_assoc {α β γ : Type} (m : M α) (g : α → M β) (k : β → M γ) :
    M.bind (M.bind m g) k = M.bind m (fun a => M.bind (g a) k) := by
  funext s t
  rcases h : m s t with ⟨r, s2, t2⟩
  cases r with
  | ok a => simp [M.bind, h]
  | error e => simp [M.bind, h]

/-- A debug screenshot guarded by a condition is clean whenever screenshots
succeed. -/
theorem clean_dbgShot (env : Env)
    (hshot : ∀ t p, env.screenshot t p = Except.ok ()) (c : Prop)
    [Decidable c] (path : String) :
    Clean (if c then opScreenshot env path else pure ()) := by
  apply clean_ite
  · intro s t
    exact ⟨(), t ++ [Action.screenshot path], by
      simp [opScreenshot, envOp, extRes, hshot]⟩
  · exact clean_pure _

/-! ### C10: the reply composer-location stage cannot fail -/

/-- The body of the reply path can never raise the reply-textarea error: the
keyboard fallback sets the found flag unconditionally, so the guarded throw is
dead code; every other error source is either the browser (tagged `ext`) or a
differently worded connector error. -/
theorem ne_postReplyBody (config : BrowserTwitterConnectorConfig) (env : Env)
    (content tid : String) :
    NeverCodeErr "Could not find or use reply textarea"
      (postReplyBody config env content tid) := by
  unfold postReplyBody
  apply ne_bind
  · exact ne_envOp_ext _ _ _
  intro _
  apply ne_bind
  · exact ne_ite _ _ (ne_envOp_ext _ _ _) (ne_mpure _ _)
  intro _
  apply ne_bind
  · exact ne_of_clean _ (clean_clickFirstSelector env replyButtonSelectors)
  intro replyButtonClicked
  apply ne_bind
  · exact ne_ite _ _ (ne_throwJs _ _ (by decide)) (ne_mpure _ _)
  intro _
  apply ne_bind
  · exact ne_of_clean _
      (clean_typeIntoFirstTextarea env content replyTextareaSelectors)
  intro textareaFound
  apply ne_bind_okImplies _ (fun b => b = true)
  · exact ne_ite _ _ (ne_bind _ (ne_envOp_ext _ _ _) (fun _ => ne_mpure _ _))
      (ne_mpure _ _)
  · by_cases htf : (!textareaFound) = true
    · rw [if_pos htf]
      exact okImplies_bind_pure_const _ _
    · rw [if_neg htf]
      have ht : textareaFound = true := by simpa using htf
      rw [ht]
      exact okImplies_mpure true
  · intro tf2 htf2
    subst htf2
    apply ne_bind
    · rw [if_neg (by decide : ¬((!true) = true))]
      exact ne_mpure _ _
    intro _
    apply ne_bind
    · exact ne_ite _ _ (ne_envOp_ext _ _ _) (ne_mpure _ _)
    intro _
    apply ne_bind
    · exact ne_of_clean _
        (clean_clickFirstEnabledSelector env replyTweetButtonSelectors)
    intro c1
    apply ne_bind
    · exact ne_ite _ _ (ne_of_clean _ (clean_replyTextScan env)) (ne_mpure _ _)
    intro c2
    apply ne_bind
    · exact ne_ite _ _ (ne_envOp_ext _ _ _) (ne_mpure _ _)
    intro _
    exact ne_ite _ _ (ne_envOp_ext _ _ _) (ne_mpure _ _)

/-- `postReplyWithBrowser` can never raise the reply-textarea error. -/
theorem ne_postReplyWithBrowser (config : BrowserTwitterConnectorConfig)
    (env : Env) (content tid : String) :
    NeverCodeErr "Could not find or use reply textarea"
      (postReplyWithBrowser config env content tid) := by
  unfold postReplyWithBrowser
  apply ne_bind
  · exact ne_getConn _
  intro st
  apply ne_ite
  · exact ne_throwJs _ _ (by decide)
  · rw [tryM_throwErr]
    exact ne_postReplyBody config env content tid

/-- C10: the composer-location stage of the reply path cannot fail: whatever
the browser does, neither `postReplyWithBrowser` nor a reply `tweet` can ever
stop with the `Could not find or use reply textarea` error — the branch that
would raise it is unreachable because the keyboard fallback sets the found
flag unconditionally. -/
theorem c10_reply_composer_error_unreachable
    (config : BrowserTwitterConnectorConfig) (env : Env)
    (content tid : String) (now : Nat) :
    (∀ s t, (postReplyWithBrowser config env content tid s t).1 ≠
        Except.error (JsError.code "Could not find or use reply textarea"))
    ∧ (∀ s t, (tweet config env content (some tid) now s t).1 ≠
        Except.error (JsError.code "Could not find or use reply textarea")) := by
  constructor
  · exact ne_postReplyWithBrowser config env content tid
  · unfold tweet
    apply ne_bind
    · exact ne_getConn _
    intro st
    apply ne_ite
    · exact ne_throwJs _ _ (by decide)
    · apply ne_tryM
      · apply ne_bind
        · exact ne_postReplyWithBrowser config env content tid
        intro _
        exact ne_mpure _ _
      · intro e hne
        apply ne_bind
        · exact ne_getConn _
        intro st2
        apply ne_bind
        · exact ne_ite _ _ (ne_envOp_ext _ _ _) (ne_mpure _ _)
        intro _
        exact ne_throwErr _ _ hne

/-- C10 witness: the theorem applied at a concrete reply attempt in which no
textarea selector matches (the run goes through the keyboard fallback). -/
theorem c10_reply_composer_error_unreachable_witness :
    (postReplyWithBrowser cfgP envKb "hi" "123" stConn []).1 ≠
      Except.error (JsError.code "Could not find or use reply textarea") :=
  (c10_reply_composer_error_unreachable cfgP envKb "hi" "123" 0).1 stConn []

/-- When every selector in the list queries to nothing, the ordered
success-indicator loop returns false without an error. -/
theorem anySelectorMatches_all_none (env : Env) (sels : List String)
    (h : ∀ t sel, sel ∈ sels → env.query t sel = Except.ok none) :
    ∀ s t, ∃ t2, anySelectorMatches env sels s t = (Except.ok false, s, t2) := by
  induction sels with
  | nil => exact fun s t => ⟨t, rfl⟩
  | cons sel rest ih =>
      intro s t
      have hq : opQuery env sel s t =
          (Except.ok none, s, t ++ [Action.query sel]) := by
        simp [opQuery, envOp, extRes,
          h (t ++ [Action.query sel]) sel (by simp)]
      have hin : M.bind (opQuery env sel)
          (fun el => (pure el.isSome : M Bool)) s t =
          (Except.ok false, s, t ++ [Action.query sel]) := by
        rw [bind_ok hq]
        rfl
      obtain ⟨t2, h2⟩ := ih
        (fun t3 sel2 hmem => h t3 sel2 (List.mem_cons_of_mem _ hmem)) s
        (t ++ [Action.query sel])
      refine ⟨t2, ?_⟩
      rw [anySelectorMatches]
      simp only [bind_is_mbind]
      show M.bind _ _ s t = _
      rw [bind_ok (tryM_ok hin)]
      show (if false = true then (pure true : M Bool)
        else anySelectorMatches env rest) s (t ++ [Action.query sel]) = _
      rw [if_neg (by simp)]
      exact h2

/-! ### C5: the login success-verification step -/

/-- C5: suppose the login flow runs with working browser operations (no
buttons found, so the Enter fallbacks fire), the fixed success-indicator list
is checked and no indicator matches, and the current URL is `url0`.  If
`url0` contains `login` or `signin`, `connect` fails with the authentication
error whose message says it is still on the login page (wrapped by the login
procedure as `Twitter login failed: Login failed - still on login page`);
otherwise login proceeds as successful: `connect` returns normally and leaves
the connector connected. -/
theorem c5_login_verification (config : BrowserTwitterConnectorConfig)
    (env : Env) (isAgent : Bool) (s0 : Conn) (url0 : String)
    (hu : strFalsy config.username = false)
    (hp : strFalsy config.password = false)
    (hd : config.debug.getD false = false)
    (hlaunch : ∀ t, env.launch t = Except.ok ())
    (hnew : ∀ t, env.newPage t = Except.ok ())
    (hvp : ∀ t, env.setViewport t = Except.ok ())
    (hua : ∀ t, env.setUserAgent t = Except.ok ())
    (hgoto : ∀ t u, env.goto t u = Except.ok ())
    (hwait : ∀ t sel, env.waitForSelector t sel = Except.ok ())
    (htype : ∀ t sel txt, env.pageType t sel txt = Except.ok ())
    (hqa : ∀ t, env.queryAll t "[role=\"button\"]" = Except.ok [])
    (hkey : ∀ t k, env.keyPress t k = Except.ok ())
    (hverify : ∀ t,
      env.query t "input[data-testid=\"ocfEnterTextTextInput\"]" =
        Except.ok none)
    (hnav : ∀ t, env.waitForNavigation t = Except.ok ())
    (hind : ∀ t sel, sel ∈ successIndicators →
      env.query t sel = Except.ok none)
    (hurl : ∀ t, env.pageUrl t = url0) :
    ((jsIncludes url0 "login" || jsIncludes url0 "signin") = true →
      (connect config env isAgent s0 []).1 =
        Except.error
          (JsError.code "Twitter login failed: Login failed - still on login page"))
    ∧ ((jsIncludes url0 "login" || jsIncludes url0 "signin") = false →
      (connect config env isAgent s0 []).1 = Except.ok ()
      ∧ (connect config env isAgent s0 []).2.1.connected = true) := by
  have cgoto : ∀ u, Clean (opGoto env u) := fun u s t =>
    ⟨(), t ++ [Action.goto u], by simp [opGoto, envOp, extRes, hgoto]⟩
  have cwait : ∀ sel, Clean (opWaitForSelector env sel) := fun sel s t =>
    ⟨(), t ++ [Action.waitForSelector sel], by
      simp [opWaitForSelector, envOp, extRes, hwait]⟩
  have ctype : ∀ sel txt, Clean (opPageType env sel txt) := fun sel txt s t =>
    ⟨(), t ++ [Action.typeSelector sel txt], by
      simp [opPageType, envOp, extRes, htype]⟩
  have ckey : ∀ k, Clean (opKeyPress env k) := fun k s t =>
    ⟨(), t ++ [Action.keyPress k], by simp [opKeyPress, envOp, extRes, hkey]⟩
  have cnav : Clean (opWaitForNavigation env) := fun s t =>
    ⟨(), t ++ [Action.waitForNavigation], by
      simp [opWaitForNavigation, envOp, extRes, hnav]⟩
  have clau : Clean (opLaunch env) := fun s t =>
    ⟨(), t ++ [Action.launch], by simp [opLaunch, envOp, extRes, hlaunch]⟩
  have cnew : Clean (opNewPage env) := fun s t =>
    ⟨(), t ++ [Action.newPage], by simp [opNewPage, envOp, extRes, hnew]⟩
  have cvp : Clean (opSetViewport env) := fun s t =>
    ⟨(), t ++ [Action.setViewport], by
      simp [opSetViewport, envOp, extRes, hvp]⟩
  have cua : Clean (opSetUserAgent env) := fun s t =>
    ⟨(), t ++ [Action.setUserAgent], by
      simp [opSetUserAgent, envOp, extRes, hua]⟩
  have cqa : ∀ s t, ∃ T, opQueryAll env "[role=\"button\"]" s t =
      (Except.ok [], s, T) := fun s t =>
    ⟨t ++ [Action.queryAll "[role=\"button\"]"], by
      simp [opQueryAll, envOp, extRes, hqa]⟩
  have cver : ∀ s t,
      ∃ T, opQuery env "input[data-testid=\"ocfEnterTextTextInput\"]" s t =
        (Except.ok (none : Option Element), s, T) := fun s t =>
    ⟨t ++ [Action.query "input[data-testid=\"ocfEnterTextTextInput\"]"], by
      simp [opQuery, envOp, extRes, hverify]⟩
  have curl : ∀ s t, ∃ T, opUrl env s t = (Except.ok url0, s, T) := fun s t =>
    ⟨t ++ [Action.readUrl], by simp [opUrl, envOp, hurl]⟩
  have hdbg : ¬ (config.debug.getD false = true) := by rw [hd]; simp
  have hcredF : ¬ ((strFalsy config.username || strFalsy config.password)
      = true) := by rw [hu, hp]; simp
  obtain ⟨uA, Ta, hA⟩ := clau (assignIdentity isAgent s0) []
  obtain ⟨uB, Tb, hB⟩ :=
    cnew { assignIdentity isAgent s0 with browser := some () } Ta
  obtain ⟨uC, Tc, hC⟩ :=
    cvp { assignIdentity isAgent s0 with browser := some (), page := some () }
      Tb
  obtain ⟨uD, Td, hD⟩ :=
    cua { assignIdentity isAgent s0 with browser := some (), page := some () }
      Tc
  obtain ⟨u1, T1, h1⟩ := cgoto "https://twitter.com/i/flow/login"
    { assignIdentity isAgent s0 with browser := some (), page := some () } Td
  obtain ⟨u2, T2, h2⟩ := cwait "input[autocomplete=\"username\"]"
    { assignIdentity isAgent s0 with browser := some (), page := some () } T1
  obtain ⟨u3, T3, h3⟩ := ctype "input[autocomplete=\"username\"]"
    (config.username.getD "")
    { assignIdentity isAgent s0 with browser := some (), page := some () } T2
  obtain ⟨T4, h4⟩ := cqa
    { assignIdentity isAgent s0 with browser := some (), page := some () } T3
  obtain ⟨u5, T5, h5⟩ := ckey "Enter"
    { assignIdentity isAgent s0 with browser := some (), page := some () } T4
  obtain ⟨T6, h6⟩ := cver
    { assignIdentity isAgent s0 with browser := some (), page := some () } T5
  obtain ⟨u7, T7, h7⟩ := cwait "input[name=\"password\"]"
    { assignIdentity isAgent s0 with browser := some (), page := some () } T6
  obtain ⟨u8, T8, h8⟩ := ctype "input[name=\"password\"]"
    (config.password.getD "")
    { assignIdentity isAgent s0 with browser := some (), page := some () } T7
  obtain ⟨T9, h9⟩ := cqa
    { assignIdentity isAgent s0 with browser := some (), page := some () } T8
  obtain ⟨u10, T10, h10⟩ := ckey "Enter"
    { assignIdentity isAgent s0 with browser := some (), page := some () } T9
  obtain ⟨u11, T11, h11⟩ := cnav
    { assignIdentity isAgent s0 with browser := some (), page := some () } T10
  obtain ⟨T12, h12⟩ := anySelectorMatches_all_none env successIndicators hind
    { assignIdentity isAgent s0 with browser := some (), page := some () } T11
  obtain ⟨T13, h13⟩ := curl
    { assignIdentity isAgent s0 with browser := some (), page := some () } T12
  obtain ⟨u14, T14, h14⟩ := cgoto "https://twitter.com/home"
    { assignIdentity isAgent s0 with browser := some (), page := some () } T13
  constructor
  · intro hcase
    have hbody : browserLoginBody config env (config.username.getD "")
        (config.password.getD "") (config.email.getD "")
        { assignIdentity isAgent s0 with browser := some (), page := some () }
        Td =
        (Except.error (JsError.code "Login failed - still on login page"),
          { assignIdentity isAgent s0 with browser := some (), page := some () }, T13) := by
      unfold browserLoginBody
      simp only [bind_is_mbind]
      show M.bind _ _ _ Td = _
      rw [bind_ok h1]
      show M.bind _ _ _ T1 = _
      rw [if_neg hdbg]
      rw [bind_ok (show (pure () : M Unit)
        { assignIdentity isAgent s0 with browser := some (), page := some () }
        T1 = (Except.ok (),
          { assignIdentity isAgent s0 with browser := some (), page := some () }, T1) from rfl)]
      show M.bind _ _ _ T1 = _
      rw [bind_ok h2]
      show M.bind _ _ _ T2 = _
      rw [bind_ok h3]
      show M.bind _ _ _ T3 = _
      rw [bind_ok h4]
      show M.bind _ _ _ T4 = _
      rw [bind_ok (show clickFirstWithText ["Next"] ([] : List Element)
        { assignIdentity isAgent s0 with browser := some (), page := some () }
        T4 = (Except.ok false,
          { assignIdentity isAgent s0 with browser := some (), page := some () }, T4) from rfl)]
      show M.bind _ _ _ T4 = _
      rw [if_pos (show (!false) = true from by decide)]
      rw [bind_ok h5]
      show M.bind _ _ _ T5 = _
      rw [bind_ok h6]
      show M.bind (pure ()) _ _ T6 = _
      rw [bind_ok (show (pure () : M Unit)
        { assignIdentity isAgent s0 with browser := some (), page := some () }
        T6 = (Except.ok (),
          { assignIdentity isAgent s0 with browser := some (), page := some () }, T6) from rfl)]
      show M.bind _ _ _ T6 = _
      rw [bind_ok h7]
      show M.bind _ _ _ T7 = _
      rw [bind_ok h8]
      show M.bind _ _ _ T8 = _
      rw [bind_ok h9]
      show M.bind _ _ _ T9 = _
      rw [bind_ok (show clickFirstWithText ["Log in", "Sign in"]
        ([] : List Element)
        { assignIdentity isAgent s0 with browser := some (), page := some () }
        T9 = (Except.ok false,
          { assignIdentity isAgent s0 with browser := some (), page := some () }, T9) from rfl)]
      show M.bind _ _ _ T9 = _
      rw [if_pos (show (!false) = true from by decide)]
      rw [bind_ok h10]
      show M.bind _ _ _ T10 = _
      rw [bind_ok h11]
      show M.bind _ _ _ T11 = _
      rw [if_neg hdbg]
      rw [bind_ok (show (pure () : M Unit)
        { assignIdentity isAgent s0 with browser := some (), page := some () }
        T11 = (Except.ok (),
          { assignIdentity isAgent s0 with browser := some (), page := some () }, T11) from rfl)]
      show M.bind _ _ _ T11 = _
      rw [bind_ok h12]
      show M.bind _ _ _ T12 = _
      rw [if_pos (show (!false) = true from by decide)]
      rw [mbind_assoc]
      rw [bind_ok h13]
      show M.bind _ _ _ T13 = _
      rw [if_pos hcase]
      rw [bind_err (show
        throwJs "Login failed - still on login page"
          { assignIdentity isAgent s0 with browser := some (), page := some () } T13 =
        ((Except.error (JsError.code "Login failed - still on login page"),
          { assignIdentity isAgent s0 with browser := some (), page := some () }, T13) :
          Except JsError Unit × Conn × List Action) from rfl)]
    have hlogin : browserLogin config env (config.username.getD "")
        (config.password.getD "") (config.email.getD "")
        { assignIdentity isAgent s0 with browser := some (), page := some () }
        Td =
        (Except.error
          (JsError.code
            "Twitter login failed: Login failed - still on login page"),
          { assignIdentity isAgent s0 with browser := some (), page := some () }, T13) := by
      unfold browserLogin
      show M.bind getConn _ _ Td = _
      rw [bind_ok (show getConn
        { assignIdentity isAgent s0 with browser := some (), page := some () }
        Td = (Except.ok
          { assignIdentity isAgent s0 with browser := some (), page := some () },
          { assignIdentity isAgent s0 with browser := some (), page := some () }, Td) from rfl)]
      rw [if_neg (show ¬ (({ assignIdentity isAgent s0 with
          browser := some (), page := some () } : Conn).page.isNone = true)
        from by simp)]
      rw [tryM_err hbody]
      unfold browserLoginCatch
      show M.bind getConn _ _ T13 = _
      rw [bind_ok (show getConn
        { assignIdentity isAgent s0 with browser := some (), page := some () }
        T13 = (Except.ok
          { assignIdentity isAgent s0 with browser := some (), page := some () },
          { assignIdentity isAgent s0 with browser := some (), page := some () }, T13) from rfl)]
      show M.bind _ _ _ T13 = _
      rw [if_neg (show ¬ ((({ assignIdentity isAgent s0 with
          browser := some (), page := some () } : Conn).page.isSome &&
          config.debug.getD false) = true) from by rw [hd]; simp)]
      rw [bind_ok (show (pure () : M Unit)
        { assignIdentity isAgent s0 with browser := some (), page := some () }
        T13 = (Except.ok (),
          { assignIdentity isAgent s0 with browser := some (), page := some () }, T13) from rfl)]
      rfl
    have hcb : connectBody config env (assignIdentity isAgent s0) [] =
        (Except.error
          (JsError.code
            "Twitter login failed: Login failed - still on login page"),
          { assignIdentity isAgent s0 with browser := some (), page := some () }, T13) := by
      unfold connectBody
      simp only [bind_is_mbind]
      show M.bind _ _ _ [] = _
      rw [if_neg hcredF]
      rw [bind_ok (show (pure () : M Unit) (assignIdentity isAgent s0) [] =
        (Except.ok (), assignIdentity isAgent s0, []) from rfl)]
      show M.bind _ _ _ [] = _
      rw [bind_ok hA]
      show M.bind _ _ _ Ta = _
      rw [bind_ok (show modifyConn (fun s => { s with browser := some () })
        (assignIdentity isAgent s0) Ta = (Except.ok (),
          { assignIdentity isAgent s0 with browser := some () }, Ta)
        from rfl)]
      show M.bind _ _ _ Ta = _
      rw [bind_ok hB]
      show M.bind _ _ _ Tb = _
      rw [bind_ok (show modifyConn (fun s => { s with page := some () })
        { assignIdentity isAgent s0 with browser := some () } Tb =
        (Except.ok (), { assignIdentity isAgent s0 with browser := some (), page := some () }, Tb) from rfl)]
      show M.bind _ _ _ Tb = _
      rw [bind_ok hC]
      show M.bind _ _ _ Tc = _
      rw [bind_ok hD]
      show M.bind _ _ _ Td = _
      rw [bind_err hlogin]
    have hrun : connect config env isAgent s0 [] =
        (Except.error
          (JsError.code
            "Twitter login failed: Login failed - still on login page"),
          { assignIdentity isAgent s0 with browser := none, page := none },
          T13 ++ [Action.closeBrowser]) := by
      unfold connect
      show M.bind (modifyConn _) _ s0 [] = _
      rw [bind_ok (show modifyConn (assignIdentity isAgent) s0 [] =
        (Except.ok (), assignIdentity isAgent s0, []) from rfl)]
      rw [tryM_err hcb, connectCleanup_run]
      simp
    rw [hrun]
  · intro hcase
    have hbody : browserLoginBody config env (config.username.getD "")
        (config.password.getD "") (config.email.getD "")
        { assignIdentity isAgent s0 with browser := some (), page := some () }
        Td =
        (Except.ok (),
          { assignIdentity isAgent s0 with browser := some (), page := some () }, T14) := by
      unfold browserLoginBody
      simp only [bind_is_mbind]
      show M.bind _ _ _ Td = _
      rw [bind_ok h1]
      show M.bind _ _ _ T1 = _
      rw [if_neg hdbg]
      rw [bind_ok (show (pure () : M Unit)
        { assignIdentity isAgent s0 with browser := some (), page := some () }
        T1 = (Except.ok (),
          { assignIdentity isAgent s0 with browser := some (), page := some () }, T1) from rfl)]
      show M.bind _ _ _ T1 = _
      rw [bind_ok h2]
      show M.bind _ _ _ T2 = _
      rw [bind_ok h3]
      show M.bind _ _ _ T3 = _
      rw [bind_ok h4]
      show M.bind _ _ _ T4 = _
      rw [bind_ok (show clickFirstWithText ["Next"] ([] : List Element)
        { assignIdentity isAgent s0 with browser := some (), page := some () }
        T4 = (Except.ok false,
          { assignIdentity isAgent s0 with browser := some (), page := some () }, T4) from rfl)]
      show M.bind _ _ _ T4 = _
      rw [if_pos (show (!false) = true from by decide)]
      rw [bind_ok h5]
      show M.bind _ _ _ T5 = _
      rw [bind_ok h6]
      show M.bind (pure ()) _ _ T6 = _
      rw [bind_ok (show (pure () : M Unit)
        { assignIdentity isAgent s0 with browser := some (), page := some () }
        T6 = (Except.ok (),
          { assignIdentity isAgent s0 with browser := some (), page := some () }, T6) from rfl)]
      show M.bind _ _ _ T6 = _
      rw [bind_ok h7]
      show M.bind _ _ _ T7 = _
      rw [bind_ok h8]
      show M.bind _ _ _ T8 = _
      rw [bind_ok h9]
      show M.bind _ _ _ T9 = _
      rw [bind_ok (show clickFirstWithText ["Log in", "Sign in"]
        ([] : List Element)
        { assignIdentity isAgent s0 with browser := some (), page := some () }
        T9 = (Except.ok false,
          { assignIdentity isAgent s0 with browser := some (), page := some () }, T9) from rfl)]
      show M.bind _ _ _ T9 = _
      rw [if_pos (show (!false) = true from by decide)]
      rw [bind_ok h10]
      show M.bind _ _ _ T10 = _
      rw [bind_ok h11]
      show M.bind _ _ _ T11 = _
      rw [if_neg hdbg]
      rw [bind_ok (show (pure () : M Unit)
        { assignIdentity isAgent s0 with browser := some (), page := some () }
        T11 = (Except.ok (),
          { assignIdentity isAgent s0 with browser := some (), page := some () }, T11) from rfl)]
      show M.bind _ _ _ T11 = _
      rw [bind_ok h12]
      show M.bind _ _ _ T12 = _
      rw [if_pos (show (!false) = true from by decide)]
      rw [mbind_assoc]
      rw [bind_ok h13]
      show M.bind _ _ _ T13 = _
      rw [if_neg (show ¬ ((jsIncludes url0 "login" ||
          jsIncludes url0 "signin") = true) from by rw [hcase]; simp)]
      rw [bind_ok (show (pure () : M Unit)
        { assignIdentity isAgent s0 with browser := some (), page := some () }
        T13 = (Except.ok (),
          { assignIdentity isAgent s0 with browser := some (), page := some () }, T13) from rfl)]
      exact h14
    have hlogin : browserLogin config env (config.username.getD "")
        (config.password.getD "") (config.email.getD "")
        { assignIdentity isAgent s0 with browser := some (), page := some () }
        Td =
        (Except.ok (),
          { assignIdentity isAgent s0 with browser := some (), page := some () }, T14) := by
      unfold browserLogin
      show M.bind getConn _ _ Td = _
      rw [bind_ok (show getConn
        { assignIdentity isAgent s0 with browser := some (), page := some () }
        Td = (Except.ok
          { assignIdentity isAgent s0 with browser := some (), page := some () },
          { assignIdentity isAgent s0 with browser := some (), page := some () }, Td) from rfl)]
      rw [if_neg (show ¬ (({ assignIdentity isAgent s0 with
          browser := some (), page := some () } : Conn).page.isNone = true)
        from by simp)]
      rw [tryM_ok hbody]
    have hok : (connect config env isAgent s0 []).1 = Except.ok ()
        ∧ (connect config env isAgent s0 []).2.1.connected = true := by
      have hrun0 : connect config env isAgent s0 [] =
          tryM (connectBody config env) (connectCleanup env)
            (assignIdentity isAgent s0) [] := by
        unfold connect
        show M.bind (modifyConn _) _ s0 [] = _
        rw [bind_ok (show modifyConn (assignIdentity isAgent) s0 [] =
          (Except.ok (), assignIdentity isAgent s0, []) from rfl)]
      by_cases hmon : (listTruthy config.monitorKeywords ||
          listTruthy config.monitorUsers) = true
      · have hcb : connectBody config env (assignIdentity isAgent s0) [] =
            (Except.ok (),
              { assignIdentity isAgent s0 with browser := some (), page := some (), connected := true, monitorInterval := some (jsOr config.pollInterval 60000) },
              T14) := by
          unfold connectBody
          simp only [bind_is_mbind]
          show M.bind _ _ _ [] = _
          rw [if_neg hcredF]
          rw [bind_ok (show (pure () : M Unit) (assignIdentity isAgent s0) []
            = (Except.ok (), assignIdentity isAgent s0, []) from rfl)]
          show M.bind _ _ _ [] = _
          rw [bind_ok hA]
          show M.bind _ _ _ Ta = _
          rw [bind_ok (show modifyConn (fun s => { s with browser := some () })
            (assignIdentity isAgent s0) Ta = (Except.ok (),
              { assignIdentity isAgent s0 with browser := some () }, Ta)
            from rfl)]
          show M.bind _ _ _ Ta = _
          rw [bind_ok hB]
          show M.bind _ _ _ Tb = _
          rw [bind_ok (show modifyConn (fun s => { s with page := some () })
            { assignIdentity isAgent s0 with browser := some () } Tb =
            (Except.ok (), { assignIdentity isAgent s0 with
              browser := some (), page := some () }, Tb) from rfl)]
          show M.bind _ _ _ Tb = _
          rw [bind_ok hC]
          show M.bind _ _ _ Tc = _
          rw [bind_ok hD]
          show M.bind _ _ _ Td = _
          rw [bind_ok hlogin]
          show M.bind _ _ _ T14 = _
          rw [bind_ok (show modifyConn
            (fun s => { s with connected := true })
            { assignIdentity isAgent s0 with browser := some (), page := some () } T14 = (Except.ok (),
              { assignIdentity isAgent s0 with browser := some (), page := some (), connected := true }, T14) from rfl)]
          rw [if_pos hmon]
          rfl
        rw [hrun0, tryM_ok hcb]
        exact ⟨rfl, rfl⟩
      · have hcb : connectBody config env (assignIdentity isAgent s0) [] =
            (Except.ok (),
              { assignIdentity isAgent s0 with browser := some (), page := some (), connected := true }, T14) := by
          unfold connectBody
          simp only [bind_is_mbind]
          show M.bind _ _ _ [] = _
          rw [if_neg hcredF]
          rw [bind_ok (show (pure () : M Unit) (assignIdentity isAgent s0) []
            = (Except.ok (), assignIdentity isAgent s0, []) from rfl)]
          show M.bind _ _ _ [] = _
          rw [bind_ok hA]
          show M.bind _ _ _ Ta = _
          rw [bind_ok (show modifyConn (fun s => { s with browser := some () })
            (assignIdentity isAgent s0) Ta = (Except.ok (),
              { assignIdentity isAgent s0 with browser := some () }, Ta)
            from rfl)]
          show M.bind _ _ _ Ta = _
          rw [bind_ok hB]
          show M.bind _ _ _ Tb = _
          rw [bind_ok (show modifyConn (fun s => { s with page := some () })
            { assignIdentity isAgent s0 with browser := some () } Tb =
            (Except.ok (), { assignIdentity isAgent s0 with
              browser := some (), page := some () }, Tb) from rfl)]
          show M.bind _ _ _ Tb = _
          rw [bind_ok hC]
          show M.bind _ _ _ Tc = _
          rw [bind_ok hD]
          show M.bind _ _ _ Td = _
          rw [bind_ok hlogin]
          show M.bind _ _ _ T14 = _
          rw [bind_ok (show modifyConn
            (fun s => { s with connected := true })
            { assignIdentity isAgent s0 with browser := some (), page := some () } T14 = (Except.ok (),
              { assignIdentity isAgent s0 with browser := some (), page := some (), connected := true }, T14) from rfl)]
          rw [if_neg hmon]
          rfl
        rw [hrun0, tryM_ok hcb]
        exact ⟨rfl, rfl⟩
    exact hok

/-- C5 witness: under `envNone` every hypothesis holds; with the URL still on
a login page `connect` fails with the authentication error, and with a clean
home URL it succeeds and connects. -/
theorem c5_login_verification_witness :
    (connect cfgP (envNone "https://twitter.com/login") true Conn.init []).1 =
      Except.error
        (JsError.code "Twitter login failed: Login failed - still on login page")
    ∧ (connect cfgP (envNone "https://twitter.com/home") true Conn.init []).1 =
      Except.ok () :=
  ⟨(c5_login_verification cfgP (envNone "https://twitter.com/login") true
      Conn.init "https://twitter.com/login" rfl rfl rfl (fun _ => rfl)
      (fun _ => rfl) (fun _ => rfl) (fun _ => rfl) (fun _ _ => rfl)
      (fun _ _ => rfl) (fun _ _ _ => rfl) (fun _ => rfl) (fun _ _ => rfl)
      (fun _ => rfl) (fun _ => rfl) (fun _ _ _ => rfl) (fun _ => rfl)).1
      (by decide),
   ((c5_login_verification cfgP (envNone "https://twitter.com/home") true
      Conn.init "https://twitter.com/home" rfl rfl rfl (fun _ => rfl)
      (fun _ => rfl) (fun _ => rfl) (fun _ => rfl) (fun _ _ => rfl)
      (fun _ _ => rfl) (fun _ _ _ => rfl) (fun _ => rfl) (fun _ _ => rfl)
      (fun _ => rfl) (fun _ => rfl) (fun _ _ _ => rfl) (fun _ => rfl)).2
      (by decide)).1⟩

/-! ### C7: every composer strategy fails -/

/-- C7: for a connected connector, when no composer strategy succeeds — the
textarea selector loop finds nothing (also after direct navigation to the
compose page) and the placeholder scan finds nothing — `tweet(content)` fails
with the `Could not find or use the tweet composer` error.  Navigation and
screenshots are assumed to succeed (their failure would surface a browser
error instead of reaching the composer stages). -/
theorem c7_composer_not_found (config : BrowserTwitterConnectorConfig)
    (env : Env) (content : String) (now : Nat) (s0 : Conn)
    (hconn : s0.connected = true) (hpage : s0.page = some ())
    (hbrowser : s0.browser = some ())
    (hgoto : ∀ t u, env.goto t u = Except.ok ())
    (hshot : ∀ t p, env.screenshot t p = Except.ok ())
    (hta : ∀ s t,
      (typeIntoFirstTextarea env content textareaSelectors s t).1 =
        Except.ok false)
    (hps : ∀ s t, (placeholderScan env content s t).1 = Except.ok false) :
    (tweet config env content none now s0 []).1 =
      Except.error (JsError.code "Could not find or use the tweet composer") := by
  have h1 : opGoto env "https://twitter.com/home" s0 [] =
      (Except.ok (), s0, [Action.goto "https://twitter.com/home"]) := by
    simp [opGoto, envOp, extRes, hgoto]
  obtain ⟨u1, T2, h2⟩ := clean_dbgShot env hshot (config.debug.getD false = true)
    "twitter-home-before-tweet.png" s0 [Action.goto "https://twitter.com/home"]
  obtain ⟨b1, T3, h3⟩ := clean_clickFirstSelector env composeSelectors s0 T2
  obtain ⟨b2, T4, h4⟩ := clean_typeIntoFirstTextarea env content
    textareaSelectors s0 T3
  have hb2 : b2 = false := by
    have h := hta s0 T3
    rw [h4] at h
    simpa using h
  subst hb2
  obtain ⟨b3, T5, h5⟩ := clean_placeholderScan env content s0 T4
  have hb3 : b3 = false := by
    have h := hps s0 T4
    rw [h5] at h
    simpa using h
  subst hb3
  have h6a : opGoto env "https://twitter.com/compose/tweet" s0 T5 =
      (Except.ok (), s0,
        T5 ++ [Action.goto "https://twitter.com/compose/tweet"]) := by
    simp [opGoto, envOp, extRes, hgoto]
  obtain ⟨u2, T6, h6b⟩ := clean_dbgShot env hshot
    (config.debug.getD false = true) "twitter-compose-direct.png" s0
    (T5 ++ [Action.goto "https://twitter.com/compose/tweet"])
  obtain ⟨b4, T7, h6c⟩ := clean_typeIntoFirstTextarea env content
    textareaSelectors s0 T6
  have hb4 : b4 = false := by
    have h := hta s0 T6
    rw [h6c] at h
    simpa using h
  subst hb4
  obtain ⟨u3, T8, h7a⟩ := clean_dbgShot env hshot
    (config.debug.getD false = true) "twitter-composer-not-found.png" s0 T7
  have hbody : postTweetBody config env content s0 [] =
      (Except.error (JsError.code "Could not find or use the tweet composer"),
        s0, T8) := by
    unfold postTweetBody
    simp only [bind_is_mbind]
    show M.bind _ _ s0 [] = _
    rw [bind_ok h1]
    show M.bind _ _ s0 _ = _
    rw [bind_ok h2]
    show M.bind _ _ s0 _ = _
    rw [bind_ok h3]
    show M.bind _ _ s0 _ = _
    rw [bind_ok h4]
    show M.bind _ _ s0 _ = _
    rw [if_pos (show (!false) = true from by decide)]
    rw [bind_ok h5]
    show M.bind _ _ s0 _ = _
    rw [if_pos (show (!false) = true from by decide)]
    rw [mbind_assoc]
    rw [bind_ok h6a]
    show M.bind _ _ s0 _ = _
    rw [mbind_assoc]
    rw [bind_ok h6b]
    show M.bind _ _ s0 _ = _
    rw [bind_ok h6c]
    show M.bind _ _ s0 _ = _
    rw [if_pos (show (!false) = true from by decide)]
    rw [mbind_assoc]
    rw [bind_ok h7a]
    show M.bind _ _ s0 _ = _
    rw [bind_err (show throwJs "Could not find or use the tweet composer" s0 T8
      = ((Except.error
          (JsError.code "Could not find or use the tweet composer"), s0, T8) :
          Except JsError Unit × Conn × List Action) from rfl)]
  have hpt : postTweetWithBrowser config env content s0 [] =
      (Except.error (JsError.code "Could not find or use the tweet composer"),
        s0, T8) := by
    unfold postTweetWithBrowser
    show M.bind getConn _ s0 [] = _
    rw [bind_ok (show getConn s0 [] = (Except.ok s0, s0, []) from rfl)]
    rw [if_neg (show ¬ (s0.page.isNone = true) from by rw [hpage]; simp)]
    rw [tryM_throwErr]
    exact hbody
  unfold tweet
  show (M.bind getConn _ s0 []).1 = _
  rw [bind_ok (show getConn s0 [] = (Except.ok s0, s0, []) from rfl)]
  rw [if_neg (show
    ¬ ((!s0.connected || s0.page.isNone || s0.browser.isNone) = true) from by
      rw [hconn, hpage, hbrowser]; simp)]
  show (tryM (M.bind (postTweetWithBrowser config env content) _) _ s0 []).1 = _
  rw [tryM_err (bind_err hpt)]
  show (M.bind getConn _ s0 T8).1 = _
  rw [bind_ok (show getConn s0 T8 = (Except.ok s0, s0, T8) from rfl)]
  obtain ⟨u4, T9, h8⟩ := clean_dbgShot env hshot
    ((s0.page.isSome && config.debug.getD false) = true)
    "twitter-tweet-error.png" s0 T8
  show (M.bind _ _ s0 T8).1 = _
  rw [bind_ok h8]
  rfl

/-- C7 witness: a connected connector over a browser in which every query
finds nothing; `tweet` fails with the composer error. -/
theorem c7_composer_not_found_witness :
    (tweet cfgP (envNone "https://twitter.com/home") "hello" none 7 stConn
        []).1 =
      Except.error (JsError.code "Could not find or use the tweet composer") :=
  c7_composer_not_found cfgP (envNone "https://twitter.com/home") "hello" 7
    stConn rfl rfl rfl (fun _ _ => rfl) (fun _ _ => rfl) (fun _ _ => rfl)
    (fun _ _ => rfl)

/-! ### C2: reply path versus new-post path -/

/-- C2 counterexample: the reply path does not repeat the identical
composer-location and submit-location procedure.  Under one and the same
browser in which no composer textarea selector ever matches and no
placeholder exists, the new-post path fails with the composer error while the
reply path succeeds (it falls back to raw keyboard typing, a strategy the
new-post path does not have in that order); moreover the selector lists of
the two paths differ. -/
theorem c2_counterexample :
    (postReplyWithBrowser cfgP envKb "hi" "123" stConn []).1 = Except.ok ()
    ∧ (postTweetWithBrowser cfgP envKb "hi" stConn []).1 =
        Except.error (JsError.code "Could not find or use the tweet composer")
    ∧ replyTextareaSelectors ≠ textareaSelectors
    ∧ replyTweetButtonSelectors ≠ tweetButtonSelectors := by
  refine ⟨rfl, rfl, by decide, by decide⟩

/-- C2 amended: the reply path repeats a structurally similar selector loop
but not the identical procedure.  Its textarea list swaps `Post text` for
`Reply text`; when no selector matches it types via the raw keyboard instead
of running the placeholder scan and the compose-page retry; its submit stage
uses a four-entry selector list, then a text scan for Reply/Tweet without a
disabled-state check, then the Enter key, with no in-page script evaluation.
Concretely: under `envKb` the reply run types via the keyboard; under
`envDis` (only submit candidate: a disabled element with text Tweet) the
reply text scan clicks the disabled element and never presses Enter and never
evaluates a script, while the new-post path skips it as disabled, runs the
in-page script and falls back to Enter. -/
theorem c2_reply_path_structure :
    replyTextareaSelectors =
      ["[data-testid=\"tweetTextarea_0\"]", "[aria-label=\"Tweet text\"]",
       "[aria-label=\"Reply text\"]", "[role=\"textbox\"]"]
    ∧ textareaSelectors =
      ["[data-testid=\"tweetTextarea_0\"]", "[aria-label=\"Tweet text\"]",
       "[aria-label=\"Post text\"]", "[role=\"textbox\"]"]
    ∧ replyTweetButtonSelectors =
      ["[data-testid=\"tweetButtonInline\"]", "[data-testid=\"tweetButton\"]",
       "div[role=\"button\"]:has-text(\"Reply\")",
       "div[role=\"button\"]:has-text(\"Tweet\")"]
    ∧ Action.keyType "hi" ∈
        (postReplyWithBrowser cfgP envKb "hi" "123" stConn []).2.2
    ∧ Action.keyPress "Enter" ∉
        (postReplyWithBrowser cfgP envDis "hi" "123" stConn []).2.2
    ∧ Action.evalScript ∉
        (postReplyWithBrowser cfgP envDis "hi" "123" stConn []).2.2
    ∧ Action.keyPress "Enter" ∈
        (postTweetWithBrowser cfgP envDis "hi" stConn []).2.2
    ∧ Action.evalScript ∈
        (postTweetWithBrowser cfgP envDis "hi" stConn []).2.2 := by
  refine ⟨rfl, rfl, rfl, by decide, by decide, by decide, by decide, by decide⟩

/-! ### C4: state after a failed connect -/

/-- C4 counterexample: call `connect` on a previously connected connector
(`connected = true`) with a browser whose navigation fails; `connect` throws,
but the `catch` block never resets `connected`, so the connector is NOT left
in a not-connected state as the claim demands. -/
theorem c4_counterexample :
    (connect cfgP envFail true stConn []).1 =
        Except.error (JsError.code "Twitter login failed: net down")
    ∧ (connect cfgP envFail true stConn []).2.1.connected = true :=
  ⟨rfl, rfl⟩

/-- C4 amended: whenever `connect` throws, the browser and page handles are
released (`browser = none`, `page = none`, assuming the invariant of reachable
states that a page only exists together with a browser), but `connected`
keeps its previous value; hence only from a starting state that was not
connected is the connector left not-connected, with a retry possible and
`disconnect` a safe no-op. -/
theorem c4_connect_failure_state (config : BrowserTwitterConnectorConfig)
    (env : Env) (isAgent : Bool) (s0 : Conn)
    (hsp : s0.browser = none → s0.page = none) :
    ∀ e st2 tr2,
      connect config env isAgent s0 [] = (Except.error e, st2, tr2) →
      st2.browser = none ∧ st2.page = none ∧ st2.connected = s0.connected
        ∧ (s0.connected = false →
            disconnect env st2 [] = (Except.ok (), st2, [])) := by
  intro e st2 tr2 heq
  have hrun : connect config env isAgent s0 [] =
      tryM (connectBody config env) (connectCleanup env)
        (assignIdentity isAgent s0) [] := by
    unfold connect
    show M.bind (modifyConn _) _ s0 [] = _
    rw [bind_ok (show modifyConn (assignIdentity isAgent) s0 [] =
      (Except.ok (), assignIdentity isAgent s0, []) from rfl)]
  rw [hrun] at heq
  obtain ⟨hb1, hp1, hc1⟩ := assignIdentity_fields isAgent s0
  rcases hbody : connectBody config env (assignIdentity isAgent s0) []
    with ⟨r, s2b, t2b⟩
  cases r with
  | ok a =>
      rw [tryM_ok hbody] at heq
      simp at heq
  | error e2 =>
      have hstates := connectBody_err_states config env
        (assignIdentity isAgent s0) [] e2 s2b t2b hbody
      rw [tryM_err hbody, connectCleanup_run] at heq
      have hst2 : st2 = (if s2b.browser.isSome then
          { s2b with browser := none, page := none } else s2b) :=
        (congrArg (fun p => p.2.1) heq).symm
      have hmain : st2.browser = none ∧ st2.page = none
          ∧ st2.connected = s0.connected := by
        rcases hstates with h1 | h1 | h1
        · subst h1
          rcases hB : s0.browser with _ | u
          · rw [hst2]
            rw [hb1, hB]
            simp
            exact ⟨(hb1.trans hB), (hp1.trans (hsp hB)), hc1⟩
          · rw [hst2, hb1, hB]
            simp
            exact hc1
        · subst h1
          rw [hst2]
          simp
          exact hc1
        · subst h1
          rw [hst2]
          simp
          exact hc1
      refine ⟨hmain.1, hmain.2.1, hmain.2.2, ?_⟩
      intro hc0
      exact disconnect_not_connected env st2 (hmain.2.2.trans hc0)

/-- C4 amended witness: a fresh connector, a failing login; the connector is
left fully reset and `disconnect` is a no-op. -/
theorem c4_connect_failure_state_witness :
    (connect cfgP envFail true Conn.init []).2.1.browser = none
    ∧ (connect cfgP envFail true Conn.init []).2.1.page = none
    ∧ (connect cfgP envFail true Conn.init []).2.1.connected = false :=
  by
    have h := c4_connect_failure_state cfgP envFail true Conn.init
      (fun _ => rfl) (JsError.code "Twitter login failed: net down")
      ((connect cfgP envFail true Conn.init []).2.1)
      ((connect cfgP envFail true Conn.init []).2.2) rfl
    exact ⟨h.1, h.2.1, h.2.2.1⟩

/-! ### C3: pollInterval at construction -/

/-- C3 counterexample: the claim says the constructed `pollInterval` is a
positive integer for every configuration, including negative ones.  But
`config.pollInterval || 60000` keeps every nonzero value, so `-5` survives
construction and is not positive. -/
theorem c3_counterexample :
    (mkConfig { pollInterval := some (-5) }).pollInterval = some (-5)
      ∧ ¬ (0 : Int) < -5 := by
  exact ⟨rfl, by decide⟩

/-- C3 amended: at construction, an unset or zero `pollInterval` defaults to
60000 and every nonzero value (negative ones included) is kept unchanged, so
the constructed value is positive whenever the given value is nonnegative or
absent; the monitoring timer is armed with exactly the constructed value (the
re-application of the default in `setupMonitoring` is the identity). -/
theorem c3_pollInterval_construction :
    (∀ c : BrowserTwitterConnectorConfig, c.pollInterval = none →
        (mkConfig c).pollInterval = some 60000)
    ∧ (∀ c : BrowserTwitterConnectorConfig, c.pollInterval = some 0 →
        (mkConfig c).pollInterval = some 60000)
    ∧ (∀ (c : BrowserTwitterConnectorConfig) (v : Int),
        c.pollInterval = some v → v ≠ 0 → (mkConfig c).pollInterval = some v)
    ∧ (∀ (c : BrowserTwitterConnectorConfig) (v : Int),
        c.pollInterval = some v → 0 ≤ v →
          ∃ w, (mkConfig c).pollInterval = some w ∧ 0 < w)
    ∧ (∀ (c : BrowserTwitterConnectorConfig) (s : Conn) (t : List Action),
        (setupMonitoring (mkConfig c) s t).2.1.monitorInterval =
          (mkConfig c).pollInterval) := by
  refine ⟨?_, ?_, ?_, ?_, ?_⟩
  · intro c h
    simp [mkConfig, jsOr, h]
  · intro c h
    simp [mkConfig, jsOr, h]
  · intro c v h hv
    simp [mkConfig, jsOr, h, hv]
  · intro c v h hv
    rcases eq_or_ne v 0 with h0 | h0
    · exact ⟨60000, by simp [mkConfig, jsOr, h, h0], by norm_num⟩
    · exact ⟨v, by simp [mkConfig, jsOr, h, h0],
        lt_of_le_of_ne hv (Ne.symm h0)⟩
  · intro c s t
    rcases hp : c.pollInterval with _ | v
    · simp [setupMonitoring, modifyConn, mkConfig, jsOr, hp, bind_is_mbind,
        M.bind]
    · rcases eq_or_ne v 0 with h0 | h0
      · simp [setupMonitoring, modifyConn, mkConfig, jsOr, hp, h0,
          bind_is_mbind, M.bind]
      · simp [setupMonitoring, modifyConn, mkConfig, jsOr, hp, h0,
          bind_is_mbind, M.bind]

/-- C3 witness: the amended theorem applied at concrete inputs — an absent
interval defaults to 60000 and a positive interval 5 is kept. -/
theorem c3_pollInterval_construction_witness :
    (mkConfig cfgNoCred).pollInterval = some 60000
      ∧ (mkConfig { pollInterval := some 5 }).pollInterval = some 5 :=
  ⟨c3_pollInterval_construction.1 cfgNoCred rfl,
   c3_pollInterval_construction.2.2.1 { pollInterval := some 5 } 5 rfl
     (by decide)⟩

/-! ### C9: tweet while not connected -/

/-- C9: for every content, parent id and environment, calling `tweet` on a
connector whose `connected` flag is false stops at the guard with the
`Not connected to Twitter` error, leaves the state untouched and performs no
browser action at all (the trace stays empty). -/
theorem c9_tweet_not_connected (config : BrowserTwitterConnectorConfig)
    (env : Env) (content : String) (replyToId : Option String) (now : Nat)
    (s0 : Conn) (h : s0.connected = false) :
    tweet config env content replyToId now s0 [] =
      (Except.error (JsError.code "Not connected to Twitter"), s0, []) := by
  unfold tweet
  show M.bind getConn _ s0 [] = _
  rw [bind_ok (show getConn s0 [] = (Except.ok s0, s0, []) from rfl)]
  have hc : (!s0.connected || s0.page.isNone || s0.browser.isNone) = true := by
    rw [h]
    rfl
  rw [if_pos hc]
  rfl

/-- C9 witness: the theorem applied to a freshly constructed connector. -/
theorem c9_tweet_not_connected_witness :
    tweet cfgP envOk "hello" none 5 Conn.init [] =
      (Except.error (JsError.code "Not connected to Twitter"), Conn.init, []) :=
  c9_tweet_not_connected cfgP envOk "hello" none 5 Conn.init rfl

/-! ### C8: the synthetic identifiers returned on success -/

/-- C8: whenever `tweet` returns normally, the returned string is exactly
`tweet_posted_<timestamp>` for a new post and exactly
`reply_to_<parentId>_posted` for a reply, for every content, parent id,
environment and starting state. -/
theorem c8_tweet_return_shape (config : BrowserTwitterConnectorConfig)
    (env : Env) (content : String) (now : Nat) :
    (∀ (s0 : Conn) (t0 : List Action) (str : String),
        (tweet config env content none now s0 t0).1 = Except.ok str →
        str = "tweet_posted_" ++ toString now)
    ∧ (∀ (rid : String) (s0 : Conn) (t0 : List Action) (str : String),
        (tweet config env content (some rid) now s0 t0).1 = Except.ok str →
        str = "reply_to_" ++ rid ++ "_posted") := by
  constructor
  · intro s0 t0 str h
    unfold tweet at h
    rcases bind_ok_inv h with ⟨st, _, h1⟩
    by_cases hc : (!st.connected || st.page.isNone || st.browser.isNone) = true
    · rw [if_pos hc] at h1
      simp [throwJs] at h1
    · rw [if_neg hc] at h1
      rcases tryM_ok_inv h1 with h2 | ⟨e, _, h2⟩
      · rcases bind_ok_inv h2 with ⟨_, _, h3⟩
        rcases bind_ok_inv h3 with ⟨st2, _, h4⟩
        rcases bind_ok_inv h4 with ⟨_, _, h5⟩
        simp [pure_is_mpure, M.pure] at h5
        exact h5.symm
      · rcases bind_ok_inv h2 with ⟨st2, _, h3⟩
        rcases bind_ok_inv h3 with ⟨_, _, h4⟩
        simp [throwErr] at h4
  · intro rid s0 t0 str h
    unfold tweet at h
    rcases bind_ok_inv h with ⟨st, _, h1⟩
    by_cases hc : (!st.connected || st.page.isNone || st.browser.isNone) = true
    · rw [if_pos hc] at h1
      simp [throwJs] at h1
    · rw [if_neg hc] at h1
      rcases tryM_ok_inv h1 with h2 | ⟨e, _, h2⟩
      · rcases bind_ok_inv h2 with ⟨_, _, h3⟩
        simp [pure_is_mpure, M.pure] at h3
        exact h3.symm
      · rcases bind_ok_inv h2 with ⟨st2, _, h3⟩
        rcases bind_ok_inv h3 with ⟨_, _, h4⟩
        simp [throwErr] at h4

/-- C8 witness: under a browser in which the first selectors succeed, both
paths of `tweet` return normally and the theorem pins the returned strings. -/
theorem c8_tweet_return_shape_witness :
    ("tweet_posted_12345" = "tweet_posted_" ++ toString (12345 : Nat))
      ∧ ("reply_to_987_posted" = "reply_to_" ++ "987" ++ "_posted") :=
  ⟨(c8_tweet_return_shape cfgP envOk "hello" 12345).1 stConn []
      "tweet_posted_12345" rfl,
   (c8_tweet_return_shape cfgP envOk "hello" 12345).2 "987" stConn []
      "reply_to_987_posted" rfl⟩

end BTwitter
